import Mathlib

/-!
# Verification of the `ts-webcam` session core

A shallow embedding of the `Webcam` class (the ts-webcam library bundled in
this repository) and proofs about its public operations.

Modelling conventions:
* TypeScript objects become Lean structures; `null`/`undefined` fields become
  `Option`; JS truthiness tests are translated field by field (in particular
  an empty array is truthy, the empty string and `0` are falsy).
* Thrown exceptions become `Except ErrVal`.  `CameraError` values are the
  `.cam`/`.camWrap` constructors; raw platform faults are `.native`;
  `throw null` (reachable when the candidate list is empty) is `.nullv`.
* Platform primitives (`getUserMedia`, the permissions API, `video.play()`)
  are external collaborators.  Each run of an operation is given a scripted
  environment describing the outcomes of the platform calls it performs, in
  call order.  A stream handed out by a successful `getUserMedia` is live and
  stays live until `stopStream` stops its tracks, which in the source always
  nulls the `stream` field in the same step; hence a stream held in the state
  is live, and `isActive` is modelled by presence of the stream.
* JS numbers that the claims use only as integers are `Nat`; the capture
  scale/quality (genuinely fractional) are `Rat`.
-/

namespace TsWebcam

/-- `PermissionState` from the source: `'granted' | 'denied' | 'prompt'`. -/
inductive PermissionState
  | granted
  | denied
  | prompt
deriving DecidableEq, Repr

/-- `CameraErrorCode` union type from the source. -/
inductive CameraErrorCode
  | noPermissionsApi
  | permissionDenied
  | microphonePermissionDenied
  | configurationError
  | noDevice
  | noMediaDevicesSupport
  | invalidDeviceId
  | noResolutions
  | cameraStartError
  | cameraInitializationError
  | noStream
  | cameraSettingsError
  | cameraStopError
  | cameraAlreadyInUse
  | zoomNotSupported
  | torchNotSupported
  | focusNotSupported
  | deviceListError
  | unknown
deriving DecidableEq, Repr

/-- Values that can be thrown.  `cam`/`camWrap` are `CameraError`s (without /
with a wrapped original error), `native` is a raw platform exception with its
`name` and message, `nullv` is the JS value `null` thrown as an exception. -/
inductive ErrVal
  | cam (code : CameraErrorCode) (message : String)
  | camWrap (code : CameraErrorCode) (message : String) (original : ErrVal)
  | native (name : String) (message : String)
  | nullv
deriving DecidableEq, Repr

instance {ε α : Type} [DecidableEq ε] [DecidableEq α] : DecidableEq (Except ε α) := fun x y => by
  cases x with
  | error e₁ =>
    cases y with
    | error e₂ =>
      exact decidable_of_iff (e₁ = e₂) ⟨by rintro rfl; rfl, fun h => by injection h⟩
    | ok _ => exact isFalse fun h => Except.noConfusion h
  | ok a =>
    cases y with
    | error _ => exact isFalse fun h => Except.noConfusion h
    | ok b =>
      exact decidable_of_iff (a = b) ⟨by rintro rfl; rfl, fun h => by injection h⟩

/-- `error instanceof CameraError`. -/
def ErrVal.isCameraError : ErrVal → Bool
  | .cam _ _ => true
  | .camWrap _ _ _ => true
  | _ => false

/-- `error.message` as read by `handleError` when wrapping unknown errors. -/
def ErrVal.message : ErrVal → String
  | .cam _ m => m
  | .camWrap _ m _ => m
  | .native _ m => m
  | .nullv => ""

/-- `new CameraError(code, message, originalError?)`. -/
def mkCameraError (code : CameraErrorCode) (message : String) :
    Option ErrVal → ErrVal
  | none => .cam code message
  | some e => .camWrap code message e

/-- `Resolution` interface: `{key, name, width, height}`. -/
structure Resolution where
  key : String
  name : String
  width : Nat
  height : Nat
deriving DecidableEq, Repr

/-- `MediaDeviceInfo` (the fields the core reads). -/
structure DeviceInfo where
  deviceId : String
  kind : String
  label : String
deriving DecidableEq, Repr

/-- The `resolution?: Resolution | Resolution[]` configuration field. -/
inductive ResolutionSetting
  | single (r : Resolution)
  | list (rs : List Resolution)
deriving DecidableEq, Repr

/-- `Array.isArray(resolution) ? resolution : [resolution]` in `openCamera`. -/
def ResolutionSetting.toList : ResolutionSetting → List Resolution
  | .single r => [r]
  | .list rs => rs

/-- `WebcamConfig`.  `device` is `Option` because the default configuration
installs `null as unknown as MediaDeviceInfo`.  `previewElement` records
whether a preview video element is attached (the element itself is external;
its `style.transform` and `srcObject` are mirrored in `WebcamState`). -/
structure WebcamConfig where
  audio : Bool
  device : Option DeviceInfo
  resolution : Option ResolutionSetting
  mirrorEnabled : Bool
  allowAnyResolution : Bool
  allowSwapResolution : Bool
  previewElement : Bool
deriving DecidableEq, Repr

/-- `Partial<WebcamConfig>`: `some` means the key is present.  (The interface
has no key named `mirror`; see `PartialConfig.hasKey`.) -/
structure PartialConfig where
  audio : Option Bool := none
  device : Option DeviceInfo := none
  resolution : Option ResolutionSetting := none
  mirrorEnabled : Option Bool := none
  allowAnyResolution : Option Bool := none
  allowSwapResolution : Option Bool := none
  previewElement : Option Bool := none
deriving DecidableEq, Repr

/-- The JS `key in partial` test, enumerating the keys `Partial<WebcamConfig>`
can actually carry.  In particular `"mirror"` is not among them: the boolean
field of `WebcamConfig` is named `mirrorEnabled`. -/
def PartialConfig.hasKey (p : PartialConfig) : String → Bool
  | "audio" => p.audio.isSome
  | "device" => p.device.isSome
  | "resolution" => p.resolution.isSome
  | "mirrorEnabled" => p.mirrorEnabled.isSome
  | "allowAnyResolution" => p.allowAnyResolution.isSome
  | "allowSwapResolution" => p.allowSwapResolution.isSome
  | "previewElement" => p.previewElement.isSome
  | _ => false

/-- `{...base, ...p}`: keys present in `p` overwrite `base`. -/
def mergeConfig (base : WebcamConfig) (p : PartialConfig) : WebcamConfig where
  audio := p.audio.getD base.audio
  device := match p.device with | some d => some d | none => base.device
  resolution := match p.resolution with | some r => some r | none => base.resolution
  mirrorEnabled := p.mirrorEnabled.getD base.mirrorEnabled
  allowAnyResolution := p.allowAnyResolution.getD base.allowAnyResolution
  allowSwapResolution := p.allowSwapResolution.getD base.allowSwapResolution
  previewElement := p.previewElement.getD base.previewElement

/-- `CameraFeatures`. -/
structure CameraFeatures where
  hasZoom : Bool
  hasTorch : Bool
  hasFocus : Bool
  currentZoom : Nat
  minZoom : Nat
  maxZoom : Nat
  isTorchActive : Bool
  isFocusActive : Bool
  activeFocusMode : String
  availableFocusModes : List String
deriving DecidableEq, Repr

/-- The `capabilities` literal used by the constructor and `resetState`. -/
def defaultCapabilities : CameraFeatures where
  hasZoom := false
  hasTorch := false
  hasFocus := false
  currentZoom := 1
  minZoom := 1
  maxZoom := 1
  isTorchActive := false
  isFocusActive := false
  activeFocusMode := "none"
  availableFocusModes := []

/-- A live `MediaStream` together with the track capability/settings data the
core reads from it (`getCapabilities()` / `getSettings()` of its video
track). -/
structure MediaStream where
  id : Nat
  width : Nat
  height : Nat
  capZoom : Option (Nat × Nat) := none
  capTorch : Bool := false
  capFocusModes : Option (List String) := none
  settingsZoom : Option Nat := none
  settingsTorch : Bool := false
  settingsFocusMode : Option String := none
deriving DecidableEq, Repr

/-- `updateCapabilities()`: the `CameraFeatures` computed from the active
video track's capabilities and settings (JS `||` defaults; `!!s` truthiness:
a present focus-mode string is truthy iff non-empty, a present focus-mode
array is truthy even when empty). -/
def capsOfStream (s : MediaStream) : CameraFeatures where
  hasZoom := s.capZoom.isSome
  hasTorch := s.capTorch
  hasFocus := s.capFocusModes.isSome
  currentZoom := match s.settingsZoom with | some z => if z = 0 then 1 else z | none => 1
  minZoom := match s.capZoom with | some z => if z.1 = 0 then 1 else z.1 | none => 1
  maxZoom := match s.capZoom with | some z => if z.2 = 0 then 1 else z.2 | none => 1
  isTorchActive := s.settingsTorch
  isFocusActive := match s.settingsFocusMode with | some m => m ≠ "" | none => false
  activeFocusMode := match s.settingsFocusMode with | some m => if m = "" then "none" else m | none => "none"
  availableFocusModes := s.capFocusModes.getD []

/-- `WebcamStatus` enum. -/
inductive WebcamStatus
  | idle
  | initializing
  | ready
  | error
deriving DecidableEq, Repr

/-- `WebcamState` plus the externally observable pieces of the preview
element (`style.transform` and whether `srcObject` is attached) and of the
capture canvas (its width/height). -/
structure WebcamState where
  status : WebcamStatus
  configuration : Option WebcamConfig
  stream : Option MediaStream
  lastError : Option ErrVal
  devices : List DeviceInfo
  resolutions : List Resolution
  capabilities : CameraFeatures
  permCamera : PermissionState
  permMicrophone : PermissionState
  previewTransform : String
  previewAttached : Bool
  canvasWidth : Rat
  canvasHeight : Rat
  isMobileTablet : Bool
deriving DecidableEq, Repr

/-- `getDefaultConfiguration()`: `allowSwapResolution` defaults from the
user-agent classifier (`isMobile() || isTablet()`), `device` and
`previewElement` default to null/undefined. -/
def defaultConfiguration (isMobileTablet : Bool) : WebcamConfig where
  audio := false
  device := none
  resolution := none
  mirrorEnabled := false
  allowAnyResolution := true
  allowSwapResolution := isMobileTablet
  previewElement := false

/-- The state built by the `Webcam` constructor. -/
def initialState (isMobileTablet : Bool) : WebcamState where
  status := .idle
  configuration := some (defaultConfiguration isMobileTablet)
  stream := none
  lastError := none
  devices := []
  resolutions := []
  capabilities := defaultCapabilities
  permCamera := .prompt
  permMicrophone := .prompt
  previewTransform := "none"
  previewAttached := false
  canvasWidth := 0
  canvasHeight := 0
  isMobileTablet := isMobileTablet

/-- The `CameraError` thrown by `checkConfiguration()`. -/
def configurationRequiredError : ErrVal :=
  .cam .configurationError "Please call setupConfiguration() before using webcam"

/-- `checkConfiguration()`. -/
def checkConfiguration (st : WebcamState) : Except ErrVal Unit :=
  match st.configuration with
  | none => .error configurationRequiredError
  | some _ => .ok ()

/-- `createResolution(name, width, height)`. -/
def createResolution (name : String) (width height : Nat) : Resolution where
  key := toString width ++ "x" ++ toString height
  name := name
  width := width
  height := height

/-- `DeviceCapabilitiesData`. -/
structure DeviceCapabilitiesData where
  deviceId : String
  maxWidth : Nat
  maxHeight : Nat
  minWidth : Nat
  minHeight : Nat
  hasZoom : Bool := false
  hasTorch : Bool := false
  hasFocus : Bool := false
  maxZoom : Option Nat := none
  minZoom : Option Nat := none
  supportedFocusModes : Option (List String) := none
  supportedFrameRates : List Nat := []
deriving DecidableEq, Repr

/-- One entry of the `resolutions` array `checkSupportedResolutions` returns. -/
structure SupportedResolutionEntry where
  key : String
  width : Nat
  height : Nat
  supported : Bool
deriving DecidableEq, Repr

/-- The `deviceInfo` record `checkSupportedResolutions` returns. -/
structure SupportedDeviceInfo where
  deviceId : String
  maxWidth : Nat
  maxHeight : Nat
  minWidth : Nat
  minHeight : Nat
deriving DecidableEq, Repr

/-- Return type of `checkSupportedResolutions`. -/
structure SupportedResolutionsResult where
  resolutions : List SupportedResolutionEntry
  deviceInfo : SupportedDeviceInfo
deriving DecidableEq, Repr

/-- The per-resolution range test of `checkSupportedResolutions`, in the
source's conjunct order. -/
def isResolutionSupported (cap : DeviceCapabilitiesData) (r : Resolution) : Bool :=
  decide (r.width ≤ cap.maxWidth ∧ r.height ≤ cap.maxHeight ∧
    r.width ≥ cap.minWidth ∧ r.height ≥ cap.minHeight)

/-- `checkSupportedResolutions(deviceCapabilities, desiredResolutions)`.
Reads `deviceCapabilities[0]`; on an empty array the JS code dereferences
`undefined` and crashes, modelled as `none`. -/
def checkSupportedResolutions (deviceCapabilities : List DeviceCapabilitiesData)
    (desiredResolutions : List Resolution) : Option SupportedResolutionsResult :=
  match deviceCapabilities with
  | [] => none
  | capability :: _ =>
    some
      { deviceInfo :=
          { deviceId := capability.deviceId
            maxWidth := capability.maxWidth
            maxHeight := capability.maxHeight
            minWidth := capability.minWidth
            minHeight := capability.minHeight }
        resolutions := desiredResolutions.map fun r =>
          { key := r.key
            width := r.width
            height := r.height
            supported := isResolutionSupported capability r } }

/-! ## Environments for platform calls -/

/-- Outcome of one `getUserMedia` acquisition in the negotiator: success
hands over a live stream (`playErr` is the rejection, if any, of the
subsequent `previewElement.play()` — consulted only when a preview element is
configured); failure carries the platform exception. -/
inductive AcqResult
  | ok (stream : MediaStream) (playErr : Option ErrVal)
  | err (e : ErrVal)
deriving DecidableEq, Repr

/-- The outcome a scripted environment reports once its acquisition list is
exhausted: the platform call fails. -/
def exhaustedAcq : AcqResult := .err (.native "NotReadableError" "no scripted outcome")

/-- Pop the next scripted acquisition outcome. -/
def nextAcq : List AcqResult → AcqResult × List AcqResult
  | [] => (exhaustedAcq, [])
  | a :: rest => (a, rest)

/-- The outcome scripted for the `i`-th `getUserMedia` call of a run. -/
def scriptAt (acqs : List AcqResult) (i : Nat) : AcqResult :=
  acqs.getD i exhaustedAcq

/-- Environment of one `start()` run: the classified outcomes of the
transient permission-request acquisitions (`requestMediaPermission`
classifies the platform result as granted/denied/prompt), and the scripted
outcomes of the negotiation's `getUserMedia` calls in call order. -/
structure StartEnv where
  videoPermOutcome : PermissionState := .granted
  audioPermOutcome : PermissionState := .prompt
  acquisitions : List AcqResult := []
deriving Repr

/-- An environment for code paths that perform no platform call. -/
def emptyStartEnv : StartEnv := {}

/-! ## Resolution negotiation (`buildConstraints`, `tryResolution`,
`tryAnyResolution`, `openCamera`) -/

/-- The `MediaStreamConstraints` the core passes to `getUserMedia`. -/
structure AcqConstraints where
  deviceId : String
  exactWidth : Option Nat
  exactHeight : Option Nat
  idealWidth : Option Nat
  idealHeight : Option Nat
  audio : Bool
deriving DecidableEq, Repr

/-- `buildConstraints(resolution)`: exact width/height (swapped when
`allowSwapResolution` is set) on the configured device.  Reading
`device.deviceId` of a `null` device throws a `TypeError`. -/
def buildConstraints (cfg : WebcamConfig) (r : Resolution) : Except ErrVal AcqConstraints :=
  match cfg.device with
  | none => .error (.native "TypeError" "Cannot read properties of null (reading deviceId)")
  | some d =>
    if cfg.allowSwapResolution then
      .ok { deviceId := d.deviceId, exactWidth := some r.height, exactHeight := some r.width
            idealWidth := none, idealHeight := none, audio := cfg.audio }
    else
      .ok { deviceId := d.deviceId, exactWidth := some r.width, exactHeight := some r.height
            idealWidth := none, idealHeight := none, audio := cfg.audio }

/-- The ideal-4K constraints of `tryAnyResolution`. -/
def anyResolutionConstraints (cfg : WebcamConfig) (d : DeviceInfo) : AcqConstraints where
  deviceId := d.deviceId
  exactWidth := none
  exactHeight := none
  idealWidth := some 3840
  idealHeight := some 2160
  audio := cfg.audio

/-- `setupPreviewElement()`: attach the stream and apply the mirror
transform (the subsequent `play()` outcome is handled by the caller). -/
def attachPreview (cfg : WebcamConfig) (st : WebcamState) : WebcamState :=
  if cfg.previewElement then
    { st with previewAttached := true
              previewTransform := if cfg.mirrorEnabled then "scaleX(-1)" else "none" }
  else st

/-- `tryResolution(resolution)`: build constraints, acquire, refresh
capabilities, attach the preview, then mark `READY`.  On a `play()`
rejection the already-assigned stream is left in the state and the error
propagates.  Returns the new state, the result, the `getUserMedia`
constraint log of this attempt, and the unconsumed script. -/
def tryResolution (cfg : WebcamConfig) (st : WebcamState) (r : Resolution)
    (acqs : List AcqResult) :
    WebcamState × Except ErrVal Unit × List AcqConstraints × List AcqResult :=
  match buildConstraints cfg r with
  | .error e => (st, .error e, [], acqs)
  | .ok c =>
    let (a, rest) := nextAcq acqs
    match a with
    | .err e => (st, .error e, [c], rest)
    | .ok ms playErr =>
      let st1 := { st with stream := some ms, capabilities := capsOfStream ms }
      let st2 := attachPreview cfg st1
      if cfg.previewElement then
        match playErr with
        | some e => (st2, .error e, [c], rest)
        | none => ({ st2 with status := .ready }, .ok (), [c], rest)
      else
        ({ st2 with status := .ready }, .ok (), [c], rest)

/-- `tryAnyResolution()`: require a device, acquire with ideal 4K
constraints, refresh capabilities, attach the preview, mark `READY`;
every failure inside its `try` is rewrapped as a
`camera-initialization-error`. -/
def tryAnyResolution (cfg : WebcamConfig) (st : WebcamState) (acqs : List AcqResult) :
    WebcamState × Except ErrVal Unit × List AcqConstraints × List AcqResult :=
  match cfg.device with
  | none => (st, .error (.cam .noDevice "Selected device not found"), [], acqs)
  | some d =>
    let c := anyResolutionConstraints cfg d
    let (a, rest) := nextAcq acqs
    match a with
    | .err e =>
      (st, .error (.camWrap .cameraInitializationError
        "Failed to initialize camera with any resolution" e), [c], rest)
    | .ok ms playErr =>
      let st1 := { st with stream := some ms, capabilities := capsOfStream ms }
      let st2 := attachPreview cfg st1
      if cfg.previewElement then
        match playErr with
        | some e =>
          (st2, .error (.camWrap .cameraInitializationError
            "Failed to initialize camera with any resolution" e), [c], rest)
        | none => ({ st2 with status := .ready }, .ok (), [c], rest)
      else
        ({ st2 with status := .ready }, .ok (), [c], rest)

/-- The specified-resolutions loop of `openCamera` (case 2 and case 3):
try each candidate in order, record the most recent failure, and on
exhaustion either fall through to `tryAnyResolution` or throw the recorded
failure (`throw lastError`, which throws `null` when no candidate was
iterated). -/
def openCameraLoop (cfg : WebcamConfig) (st : WebcamState) (rs : List Resolution)
    (acqs : List AcqResult) (lastError : Option ErrVal) :
    WebcamState × Except ErrVal Unit × List AcqConstraints :=
  match rs with
  | [] =>
    if cfg.allowAnyResolution then
      match tryAnyResolution cfg st acqs with
      | (st', .ok _, atts, _) => (st', .ok (), atts)
      | (st', .error _, atts, _) =>
        (st', .error (mkCameraError .cameraInitializationError
          "Failed to open camera with any resolution" lastError), atts)
    else
      (st, .error (lastError.getD .nullv), [])
  | r :: rest =>
    match tryResolution cfg st r acqs with
    | (st', .ok _, atts, _) => (st', .ok (), atts)
    | (st', .error e, atts, acqs') =>
      let le := ErrVal.camWrap .cameraInitializationError
        ("Failed to open camera with resolution: " ++ r.key) e
      let (st'', res, atts') := openCameraLoop cfg st' rest acqs' (some le)
      (st'', res, atts ++ atts')

/-- `openCamera()`.  Case 1 (no resolution configured, JS falsiness of the
field — note an empty array is truthy and goes to the loop): require
`allowAnyResolution` and try the ideal-4K acquisition, rewrapping its
failure; otherwise run the candidate loop. -/
def openCamera (st : WebcamState) (acqs : List AcqResult) :
    WebcamState × Except ErrVal Unit × List AcqConstraints :=
  match st.configuration with
  | none => (st, .error (.native "TypeError" "Cannot read properties of null (reading resolution)"), [])
  | some cfg =>
    match cfg.resolution with
    | none =>
      if !cfg.allowAnyResolution then
        (st, .error (.cam .configurationError
          "Please specify a resolution or set allowAnyResolution to true"), [])
      else
        match tryAnyResolution cfg st acqs with
        | (st', .ok _, atts, _) => (st', .ok (), atts)
        | (st', .error e, atts, _) =>
          (st', .error (.camWrap .cameraInitializationError
            "Failed to open camera with supported resolution" e), atts)
    | some setting => openCameraLoop cfg st setting.toList acqs none

/-! ## The public state-machine operations -/

/-- `handleError(error)`: store the error (wrapping non-`CameraError`s as
`unknown`), move to `ERROR`, and notify `onError` (a pure callback here). -/
def handleError (st : WebcamState) (e : ErrVal) : WebcamState :=
  { st with status := .error
            lastError := some (if e.isCameraError then e else .camWrap .unknown e.message e) }

/-- `setupConfiguration(configuration)`: require a device, then merge the
given fields over `getDefaultConfiguration()`. -/
def setupConfigurationOp (st : WebcamState) (p : PartialConfig) :
    WebcamState × Except ErrVal Unit :=
  match p.device with
  | none => (st, .error (.cam .invalidDeviceId "Device ID is required"))
  | some _ =>
    ({ st with configuration := some (mergeConfig (defaultConfiguration st.isMobileTablet) p) },
      .ok ())

/-- `start()`: `checkConfiguration` (outside the `try`), then
`initializeWebcam` = set `INITIALIZING`, clear `lastError`, request
permissions (camera always, microphone only when `audio` is configured),
validate them, and `openCamera`; any failure goes through `handleError` and
is rethrown (pre-wrapped as `camera-start-error` when not a `CameraError`).
Also returns the negotiation's `getUserMedia` constraint log. -/
def startOp (st : WebcamState) (env : StartEnv) :
    WebcamState × Except ErrVal Unit × List AcqConstraints :=
  match st.configuration with
  | none => (st, .error configurationRequiredError, [])
  | some cfg =>
    let st1 := { st with status := .initializing, lastError := none
                         permCamera := env.videoPermOutcome }
    let cameraPerm := env.videoPermOutcome
    let (st2, microphonePerm) :=
      if cfg.audio then
        ({ st1 with permMicrophone := env.audioPermOutcome }, env.audioPermOutcome)
      else (st1, PermissionState.prompt)
    if cameraPerm = .denied then
      let e := ErrVal.cam .permissionDenied "Please allow camera access"
      (handleError st2 e, .error e, [])
    else if cfg.audio ∧ microphonePerm = .denied then
      let e := ErrVal.cam .microphonePermissionDenied "Please allow microphone access"
      (handleError st2 e, .error e, [])
    else
      match openCamera st2 env.acquisitions with
      | (st3, .ok _, atts) => (st3, .ok (), atts)
      | (st3, .error e, atts) =>
        let e' := if e.isCameraError then e
          else .camWrap .cameraStartError "Failed to start camera" e
        (handleError st3 e', .error e', atts)

/-- `stop()`: `checkConfiguration`, `stopStream` (stop tracks, null the
stream, detach the preview) and `resetState` (back to `IDLE`, clear the
error, default capabilities). -/
def stopOp (st : WebcamState) : WebcamState × Except ErrVal Unit :=
  match st.configuration with
  | none => (st, .error configurationRequiredError)
  | some cfg =>
    let st1 := { st with stream := none }
    let st2 := if cfg.previewElement then { st1 with previewAttached := false } else st1
    ({ st2 with status := .idle, lastError := none, capabilities := defaultCapabilities },
      .ok ())

/-- `clearError()`: drop `lastError` and return to `IDLE` when not active. -/
def clearErrorOp (st : WebcamState) : WebcamState :=
  { st with lastError := none
            status := if st.stream.isSome then st.status else .idle }

/-- `updateConfiguration(configuration, options)`: stop first when active
and `restart` is requested, merge, fire the dead `'mirror' in configuration`
preview-transform branch, and restart (`start().catch(handleError)`: a
restart failure is handled inside `start` itself and not rethrown). -/
def updateConfigurationOp (st : WebcamState) (p : PartialConfig) (restart : Bool)
    (env : StartEnv) : WebcamState × Except ErrVal WebcamConfig :=
  match st.configuration with
  | none => (st, .error configurationRequiredError)
  | some _ =>
    let wasActive := st.stream.isSome
    let st1 := if wasActive && restart then (stopOp st).1 else st
    match st1.configuration with
    | none => (st1, .error (.native "TypeError" "configuration is null"))
    | some cfg0 =>
      let cfg' := mergeConfig cfg0 p
      let st2 := { st1 with configuration := some cfg' }
      let st3 :=
        if p.hasKey "mirror" && cfg'.previewElement then
          { st2 with previewTransform := if cfg'.mirrorEnabled then "scaleX(-1)" else "none" }
        else st2
      let st4 := if wasActive && restart then (startOp st3 env).1 else st3
      (st4, .ok cfg')

/-- `toggleMirror()`: flip `mirrorEnabled` through `updateConfiguration`
with `restart: false` and return the new value. -/
def toggleMirrorOp (st : WebcamState) : WebcamState × Except ErrVal Bool :=
  match st.configuration with
  | none => (st, .error configurationRequiredError)
  | some cfg =>
    let newValue := !cfg.mirrorEnabled
    let (st', _) :=
      updateConfigurationOp st { mirrorEnabled := some newValue } false emptyStartEnv
    (st', .ok newValue)

/-- The enumerated settings `toggle` accepts. -/
inductive ToggleSetting
  | audio
  | allowSwapResolution
  | allowAnyResolution
deriving DecidableEq, Repr

/-- Environment of one `toggle` run: the microphone permissions-API query
result (`none` models a missing/failing permissions API, which the source
reports as `prompt`), the classified outcome of the transient microphone
`getUserMedia` request, and the environment of a potential restart. -/
structure ToggleEnv where
  micQuery : Option PermissionState := none
  micRequest : PermissionState := .prompt
  startEnv : StartEnv := {}
deriving Repr

/-- `checkMicrophonePermission()`: query the permissions API when present,
report and record `prompt` otherwise or on a query failure. -/
def checkMicrophonePermissionOp (st : WebcamState) (micQuery : Option PermissionState) :
    WebcamState × PermissionState :=
  match micQuery with
  | some p => ({ st with permMicrophone := p }, p)
  | none => ({ st with permMicrophone := .prompt }, .prompt)

/-- The `CameraError` thrown when microphone permission is denied. -/
def microphoneDeniedError : ErrVal :=
  .cam .microphonePermissionDenied "Please allow microphone access"

/-- The single-field partial `toggle` passes to `updateConfiguration`. -/
def togglePartial : ToggleSetting → Bool → PartialConfig
  | .audio, v => { audio := some v }
  | .allowSwapResolution, v => { allowSwapResolution := some v }
  | .allowAnyResolution, v => { allowAnyResolution := some v }

/-- The current value of a toggleable setting. -/
def WebcamConfig.settingValue (cfg : WebcamConfig) : ToggleSetting → Bool
  | .audio => cfg.audio
  | .allowSwapResolution => cfg.allowSwapResolution
  | .allowAnyResolution => cfg.allowAnyResolution

/-- `toggle(setting)`: flip the boolean; when turning `audio` on, resolve
microphone permission first (query, then a transient request from the
`prompt` state), throwing `microphone-permission-denied` before the
configuration merge on denial; `audio`/`allowSwapResolution` restart. -/
def toggleOp (st : WebcamState) (setting : ToggleSetting) (env : ToggleEnv) :
    WebcamState × Except ErrVal Bool :=
  match st.configuration with
  | none => (st, .error configurationRequiredError)
  | some cfg =>
    let newValue := !cfg.settingValue setting
    let proceed : WebcamState → WebcamState × Except ErrVal Bool := fun stc =>
      let shouldRestart := setting = .audio || setting = .allowSwapResolution
      let (st', _) :=
        updateConfigurationOp stc (togglePartial setting newValue) shouldRestart env.startEnv
      (st', .ok newValue)
    if setting = .audio ∧ newValue then
      let (st1, micPermission) := checkMicrophonePermissionOp st env.micQuery
      if micPermission = .prompt then
        let st2 := { st1 with permMicrophone := env.micRequest }
        if env.micRequest = .denied then (st2, .error microphoneDeniedError)
        else proceed st2
      else if micPermission = .denied then (st1, .error microphoneDeniedError)
      else proceed st1
    else proceed st

/-! ## Capture pipeline -/

/-- `mediaType` of `captureImage` (`'image/png' | 'image/jpeg'`). -/
inductive CaptureMediaType
  | png
  | jpeg
deriving DecidableEq, Repr

/-- The MIME string of a capture media type. -/
def CaptureMediaType.mime : CaptureMediaType → String
  | .png => "image/png"
  | .jpeg => "image/jpeg"

/-- The options object of `captureImage`. -/
structure CaptureConfig where
  scale : Option Rat := none
  mediaType : Option CaptureMediaType := none
  quality : Option Rat := none
deriving DecidableEq, Repr

/-- `config.scale || 1` (JS `||`: `0` falls back to the default `1`). -/
def effectiveScale (c : CaptureConfig) : Rat :=
  match c.scale with
  | some q => if q = 0 then 1 else q
  | none => 1

/-- `settings.width || 640` as a rational canvas dimension. -/
def jsSettingsWidth (ms : MediaStream) : Rat :=
  if ms.width = 0 then 640 else (ms.width : Rat)

/-- `settings.height || 480` as a rational canvas dimension. -/
def jsSettingsHeight (ms : MediaStream) : Rat :=
  if ms.height = 0 then 480 else (ms.height : Rat)

/-- The encoded payload `canvas.toDataURL` returns: a data URI declaring the
requested MIME type over the raster sized by the canvas.  The pixel data is
the platform encoder's; only its presence matters here. -/
structure EncodedImage where
  dataUrl : String
  width : Rat
  height : Rat
  mediaType : CaptureMediaType
  quality : Option Rat
deriving DecidableEq, Repr

/-- The `no-stream` error of `captureImage`. -/
def noStreamError : ErrVal :=
  .cam .noStream "No active stream to capture image from"

/-- The payload `captureImage` builds from the track settings and options:
canvas sized to `settings × scale`, the requested MIME type (PNG default),
quality `0.92` for JPEG / encoder default for PNG unless explicitly given,
in which case it is clamped to `[0,1]`; the platform encoder's data URI
carries the MIME type. -/
def captureResult (ms : MediaStream) (c : CaptureConfig) : EncodedImage :=
  let scale := effectiveScale c
  let mediaType := c.mediaType.getD .png
  { dataUrl := "data:" ++ mediaType.mime ++ ";base64,iVBOR"
    width := jsSettingsWidth ms * scale
    height := jsSettingsHeight ms * scale
    mediaType := mediaType
    quality :=
      match c.quality with
      | some q => some (min (max q 0) 1)
      | none => if mediaType = .jpeg then some (92 / 100 : Rat) else none }

/-- The `TypeError` thrown by `context.drawImage(previewElement, ...)` when
no preview element is configured: the source's non-null assertion
`configuration!.previewElement!` does not hold at runtime and `drawImage`
rejects the `undefined` source. -/
def drawImageTypeError : ErrVal :=
  .native "TypeError" "Failed to execute drawImage: the provided value is not an image source"

/-- `captureImage(config)`: require a configuration and an active stream,
size the capture canvas to `settings × scale` (this happens before the
draw), then draw the preview element into it (with a horizontal flip applied
and reset when mirroring) and encode.  When no preview element is
configured, `drawImage` throws a `TypeError` after the canvas has already
been resized. -/
def captureImageOp (st : WebcamState) (c : CaptureConfig) :
    WebcamState × Except ErrVal EncodedImage :=
  match st.configuration with
  | none => (st, .error configurationRequiredError)
  | some cfg =>
    match st.stream with
    | none => (st, .error noStreamError)
    | some ms =>
      let img := captureResult ms c
      let st1 := { st with canvasWidth := img.width, canvasHeight := img.height }
      if cfg.previewElement then (st1, .ok img)
      else (st1, .error drawImageTypeError)

/-! ## Reachability through the public operations -/

/-- One invocation of a public operation, bundled with the scripted
environment of the platform calls it performs. -/
inductive Op
  | setupConfiguration (p : PartialConfig)
  | start (env : StartEnv)
  | stop
  | clearError
  | updateConfiguration (p : PartialConfig) (restart : Bool) (env : StartEnv)
  | toggleMirror
  | toggle (s : ToggleSetting) (env : ToggleEnv)
  | captureImage (c : CaptureConfig)

/-- The state after one public operation (thrown errors reach the caller;
the session state is whatever the operation left behind). -/
def applyOp (st : WebcamState) : Op → WebcamState
  | .setupConfiguration p => (setupConfigurationOp st p).1
  | .start env => (startOp st env).1
  | .stop => (stopOp st).1
  | .clearError => clearErrorOp st
  | .updateConfiguration p restart env => (updateConfigurationOp st p restart env).1
  | .toggleMirror => (toggleMirrorOp st).1
  | .toggle s env => (toggleOp st s env).1
  | .captureImage c => (captureImageOp st c).1

/-- Run a list of public operations from a state. -/
def runOps (st : WebcamState) (ops : List Op) : WebcamState :=
  ops.foldl applyOp st

/-- Session states reachable from a freshly constructed `Webcam` through the
public operations. -/
inductive Reachable : WebcamState → Prop
  | init (isMobileTablet : Bool) : Reachable (initialState isMobileTablet)
  | step {st : WebcamState} (op : Op) : Reachable st → Reachable (applyOp st op)

lemma reachable_runOps {st : WebcamState} (h : Reachable st) (ops : List Op) :
    Reachable (runOps st ops) := by
  induction ops generalizing st with
  | nil => exact h
  | cons op rest ih => exact ih (Reachable.step op h)

/-! ## Claim C8: canonical resolution keys -/

/-- C8: for all non-negative integers `w` and `h`, `createResolution` yields
`key = "<w>x<h>"` (decimal), the stored width/height are `w`/`h`, the key is
fully determined by width and height (never independently set), and in
particular width `1920`, height `1080` yield key `"1920x1080"`. -/
theorem createResolution_key_canonical :
    (∀ (name : String) (w h : Nat),
      (createResolution name w h).key = toString w ++ "x" ++ toString h ∧
      (createResolution name w h).width = w ∧
      (createResolution name w h).height = h) ∧
    (∀ (n₁ n₂ : String) (w h : Nat),
      (createResolution n₁ w h).key = (createResolution n₂ w h).key) ∧
    (createResolution "Full HD" 1920 1080).key = "1920x1080" := by
  refine ⟨fun name w h => ⟨rfl, rfl, rfl⟩, fun n₁ n₂ w h => rfl, ?_⟩
  decide

/-! ## Claim C7: `checkSupportedResolutions` consults only the first probe -/

/-- The probe of the spec's worked example: bounds 320–1920 wide, 240–1080
high. -/
def exampleProbe : DeviceCapabilitiesData where
  deviceId := "device-1"
  maxWidth := 1920
  maxHeight := 1080
  minWidth := 320
  minHeight := 240

/-- C7: for every non-empty probe list, `checkSupportedResolutions` echoes
the first probe's identity and bounds as `deviceInfo`, flags each desired
resolution supported iff `minWidth ≤ width ≤ maxWidth` and
`minHeight ≤ height ≤ maxHeight` of that first probe (later probes are
ignored), and on the worked example 640x480 is supported while 3840x2160 is
not. -/
theorem checkSupportedResolutions_first_probe :
    (∀ (cap : DeviceCapabilitiesData) (rest : List DeviceCapabilitiesData)
        (desired : List Resolution),
      checkSupportedResolutions (cap :: rest) desired =
        some { deviceInfo :=
                 { deviceId := cap.deviceId, maxWidth := cap.maxWidth
                   maxHeight := cap.maxHeight, minWidth := cap.minWidth
                   minHeight := cap.minHeight }
               resolutions := desired.map fun r =>
                 { key := r.key, width := r.width, height := r.height
                   supported := isResolutionSupported cap r } }) ∧
    (∀ (cap : DeviceCapabilitiesData) (r : Resolution),
      isResolutionSupported cap r = true ↔
        (cap.minWidth ≤ r.width ∧ r.width ≤ cap.maxWidth ∧
         cap.minHeight ≤ r.height ∧ r.height ≤ cap.maxHeight)) ∧
    checkSupportedResolutions [exampleProbe]
        [createResolution "VGA" 640 480, createResolution "4K" 3840 2160] =
      some { deviceInfo :=
               { deviceId := "device-1", maxWidth := 1920, maxHeight := 1080
                 minWidth := 320, minHeight := 240 }
             resolutions :=
               [{ key := "640x480", width := 640, height := 480, supported := true },
                { key := "3840x2160", width := 3840, height := 2160, supported := false }] } := by
  refine ⟨fun cap rest desired => rfl, fun cap r => ?_, by decide⟩
  simp only [isResolutionSupported, decide_eq_true_eq, ge_iff_le]
  tauto

/-! ## Concrete fixtures -/

/-- A video input device. -/
def demoDevice : DeviceInfo where
  deviceId := "cam-1"
  kind := "videoinput"
  label := "Front camera"

/-- The VGA candidate resolution. -/
def demoResolution : Resolution := createResolution "VGA" 640 480

/-- The live stream granted for the VGA candidate. -/
def demoStream : MediaStream := { id := 1, width := 640, height := 480 }

/-- A setup call with the demo device, the single-candidate list `[VGA]`, no
any-resolution fallback and a preview element. -/
def demoSetup : PartialConfig where
  device := some demoDevice
  resolution := some (.list [demoResolution])
  allowAnyResolution := some false
  previewElement := some true

/-- A `start()` environment where the camera permission is granted and the
first (only) candidate acquisition succeeds, with the preview playing. -/
def startOkEnv : StartEnv where
  videoPermOutcome := .granted
  acquisitions := [.ok demoStream none]

/-- A session brought to `READY` by `setupConfiguration` + `start`. -/
def readyState : WebcamState :=
  runOps (initialState false) [.setupConfiguration demoSetup, .start startOkEnv]

/-! ## Claim C4: mirror toggle and the preview transform -/

/-- C4, evaluated at the failing input: in a `READY` session with a preview
element attached and `mirrorEnabled = false` (preview transform `"none"`),
`toggleMirror()` returns `true`, flips `mirrorEnabled`, keeps the status
`READY` and the very same stream — but leaves the preview element's
transform at `"none"` instead of updating it to `"scaleX(-1)"`: the
transform branch of `updateConfiguration` tests for a key named `mirror`
while the merged key is `mirrorEnabled`, so it never fires. -/
theorem toggleMirror_leaves_preview_transform :
    readyState.status = .ready ∧
    readyState.configuration.map WebcamConfig.previewElement = some true ∧
    readyState.configuration.map WebcamConfig.mirrorEnabled = some false ∧
    readyState.previewTransform = "none" ∧
    (toggleMirrorOp readyState).2 = .ok true ∧
    (toggleMirrorOp readyState).1.configuration.map WebcamConfig.mirrorEnabled = some true ∧
    (toggleMirrorOp readyState).1.status = .ready ∧
    (toggleMirrorOp readyState).1.stream = readyState.stream ∧
    (toggleMirrorOp readyState).1.previewTransform = "none" := by
  decide

/-! ## Claim C6: `toggle('audio')` under denied microphone permission -/

/-- C6: turning `audio` on via `toggle` fails with the
microphone-permission-denied error and leaves the configuration (in
particular its `audio` field) unchanged, both when the permissions API
reports `denied` outright and when it reports `prompt` (or is absent) and
the subsequent transient permission request is denied. -/
theorem toggle_audio_denied (st : WebcamState) (cfg : WebcamConfig) (env : ToggleEnv)
    (hcfg : st.configuration = some cfg) (haudio : cfg.audio = false) :
    (env.micQuery = some PermissionState.denied →
      (toggleOp st .audio env).2 = .error microphoneDeniedError ∧
      (toggleOp st .audio env).1.configuration = some cfg ∧
      (toggleOp st .audio env).1.configuration.map WebcamConfig.audio = some false) ∧
    ((env.micQuery = some PermissionState.prompt ∨ env.micQuery = none) →
      env.micRequest = PermissionState.denied →
      (toggleOp st .audio env).2 = .error microphoneDeniedError ∧
      (toggleOp st .audio env).1.configuration = some cfg ∧
      (toggleOp st .audio env).1.configuration.map WebcamConfig.audio = some false) := by
  constructor
  · intro hq
    simp [toggleOp, hcfg, WebcamConfig.settingValue, haudio,
      checkMicrophonePermissionOp, hq, haudio]
  · rintro (hq | hq) hr <;>
      simp [toggleOp, hcfg, WebcamConfig.settingValue, haudio,
        checkMicrophonePermissionOp, hq, hr, haudio]

/-- A toggle environment whose permissions API reports `denied`. -/
def deniedToggleEnv : ToggleEnv := { micQuery := some .denied }

/-- Witness for `toggle_audio_denied` at the freshly constructed session and
an environment with microphone permission already denied. -/
theorem toggle_audio_denied_witness :
    ((initialState false).configuration = some (defaultConfiguration false) ∧
      (defaultConfiguration false).audio = false) ∧
    ((toggleOp (initialState false) .audio deniedToggleEnv).2 = .error microphoneDeniedError ∧
      (toggleOp (initialState false) .audio deniedToggleEnv).1.configuration =
        some (defaultConfiguration false) ∧
      (toggleOp (initialState false) .audio deniedToggleEnv).1.configuration.map
        WebcamConfig.audio = some false) :=
  ⟨⟨rfl, rfl⟩,
    (toggle_audio_denied (initialState false) (defaultConfiguration false)
      deniedToggleEnv rfl rfl).1 rfl⟩

/-! ## Claims C2 and C3: negotiation order, termination and surfaced error -/

/-- Whether a scripted per-candidate outcome makes the whole `tryResolution`
attempt succeed: the acquisition must succeed and, when a preview element is
configured, its `play()` must not reject. -/
def attemptSucceeds (cfg : WebcamConfig) : AcqResult → Bool
  | .ok _ none => true
  | .ok _ (some _) => !cfg.previewElement
  | .err _ => false

/-- The exception a failing candidate attempt surfaces: the acquisition
failure, or the preview `play()` rejection after a successful acquisition. -/
def candidateFailure : AcqResult → ErrVal
  | .err e => e
  | .ok _ playErr => playErr.getD .nullv

/-- The constraints `buildConstraints` produces for a candidate when a
device is configured: exact width/height, swapped when
`allowSwapResolution` is set. -/
def exactConstraints (cfg : WebcamConfig) (d : DeviceInfo) (r : Resolution) :
    AcqConstraints where
  deviceId := d.deviceId
  exactWidth := some (if cfg.allowSwapResolution then r.height else r.width)
  exactHeight := some (if cfg.allowSwapResolution then r.width else r.height)
  idealWidth := none
  idealHeight := none
  audio := cfg.audio

lemma buildConstraints_eq {cfg : WebcamConfig} {d : DeviceInfo}
    (hd : cfg.device = some d) (r : Resolution) :
    buildConstraints cfg r = .ok (exactConstraints cfg d r) := by
  unfold buildConstraints exactConstraints
  rw [hd]
  by_cases hs : cfg.allowSwapResolution <;> simp [hs]

lemma scriptAt_zero (acqs : List AcqResult) : scriptAt acqs 0 = (nextAcq acqs).1 := by
  cases acqs <;> rfl

lemma scriptAt_succ (acqs : List AcqResult) (i : Nat) :
    scriptAt acqs (i + 1) = scriptAt acqs.tail i := by
  cases acqs <;> rfl

lemma tryResolution_spec {cfg : WebcamConfig} {d : DeviceInfo}
    (hd : cfg.device = some d) (st : WebcamState) (r : Resolution)
    (acqs : List AcqResult) :
    (tryResolution cfg st r acqs).2.2.1 = [exactConstraints cfg d r] ∧
    (tryResolution cfg st r acqs).2.2.2 = acqs.tail ∧
    (attemptSucceeds cfg (nextAcq acqs).1 = true →
      (tryResolution cfg st r acqs).2.1 = .ok ()) ∧
    (attemptSucceeds cfg (nextAcq acqs).1 = false →
      (tryResolution cfg st r acqs).2.1 =
        .error (candidateFailure (nextAcq acqs).1)) := by
  have hb := buildConstraints_eq hd r
  cases acqs with
  | nil =>
    by_cases hp : cfg.previewElement <;>
      simp [tryResolution, hb, nextAcq, attemptSucceeds, candidateFailure, exhaustedAcq, hp]
  | cons a as =>
    cases a with
    | err e =>
      simp [tryResolution, hb, nextAcq, attemptSucceeds, candidateFailure]
    | ok ms playErr =>
      cases playErr with
      | none =>
        by_cases hp : cfg.previewElement <;>
          simp [tryResolution, hb, nextAcq, attemptSucceeds, candidateFailure, hp]
      | some e =>
        by_cases hp : cfg.previewElement <;>
          simp [tryResolution, hb, nextAcq, attemptSucceeds, candidateFailure, hp]

lemma openCameraLoop_first_success {cfg : WebcamConfig} {d : DeviceInfo}
    (hd : cfg.device = some d) :
    ∀ (rs : List Resolution) (k : Nat) (st : WebcamState) (acqs : List AcqResult)
      (le : Option ErrVal),
      k < rs.length →
      attemptSucceeds cfg (scriptAt acqs k) = true →
      (∀ i, i < k → attemptSucceeds cfg (scriptAt acqs i) = false) →
      (openCameraLoop cfg st rs acqs le).2.1 = .ok () ∧
      (openCameraLoop cfg st rs acqs le).2.2 =
        (rs.take (k + 1)).map (exactConstraints cfg d) := by
  intro rs
  induction rs with
  | nil =>
    intro k st acqs le hk
    exact absurd hk (by simp)
  | cons r rest ih =>
    intro k st acqs le hk hsucc hfail
    obtain ⟨hatts, htail, hok, herr⟩ := tryResolution_spec hd st r acqs
    rcases h : tryResolution cfg st r acqs with ⟨st', res, atts, acqs'⟩
    rw [h] at hatts htail hok herr
    simp only at hatts htail hok herr
    cases k with
    | zero =>
      rw [scriptAt_zero] at hsucc
      have hres : res = .ok () := hok hsucc
      subst hres
      subst hatts
      simp [openCameraLoop, h]
    | succ k' =>
      have h0 : attemptSucceeds cfg (nextAcq acqs).1 = false := by
        rw [← scriptAt_zero]
        exact hfail 0 (Nat.succ_pos _)
      have hres : res = .error (candidateFailure (nextAcq acqs).1) := herr h0
      subst hres
      subst hatts
      subst htail
      have hk' : k' < rest.length := by simpa using hk
      have hs' : attemptSucceeds cfg (scriptAt acqs.tail k') = true := by
        rw [← scriptAt_succ]
        exact hsucc
      have hf' : ∀ i, i < k' → attemptSucceeds cfg (scriptAt acqs.tail i) = false :=
        fun i hi => by
          rw [← scriptAt_succ]
          exact hfail (i + 1) (Nat.succ_lt_succ hi)
      obtain ⟨ihok, ihatts⟩ := ih k' st' acqs.tail
        (some (ErrVal.camWrap .cameraInitializationError
          ("Failed to open camera with resolution: " ++ r.key)
          (candidateFailure (nextAcq acqs).1))) hk' hs' hf'
      rcases h2 : openCameraLoop cfg st' rest acqs.tail
          (some (ErrVal.camWrap .cameraInitializationError
            ("Failed to open camera with resolution: " ++ r.key)
            (candidateFailure (nextAcq acqs).1))) with ⟨st'', res', atts'⟩
      rw [h2] at ihok ihatts
      simp only at ihok ihatts
      subst ihok
      subst ihatts
      simp [openCameraLoop, h, h2]

lemma tryAnyResolution_attempts {cfg : WebcamConfig} {d : DeviceInfo}
    (hd : cfg.device = some d) (st : WebcamState) (acqs : List AcqResult) :
    (tryAnyResolution cfg st acqs).2.2.1 = [anyResolutionConstraints cfg d] := by
  cases acqs with
  | nil =>
    by_cases hp : cfg.previewElement <;>
      simp [tryAnyResolution, hd, nextAcq, exhaustedAcq, hp]
  | cons a as =>
    cases a with
    | err e => simp [tryAnyResolution, hd, nextAcq]
    | ok ms pe =>
      cases pe <;> by_cases hp : cfg.previewElement <;>
        simp [tryAnyResolution, hd, nextAcq, hp]

lemma openCameraLoop_cons_err (cfg : WebcamConfig) (st : WebcamState) (r : Resolution)
    (rest : List Resolution) (acqs : List AcqResult) (le : Option ErrVal)
    (st' : WebcamState) (e : ErrVal) (atts : List AcqConstraints) (acqs' : List AcqResult)
    (h : tryResolution cfg st r acqs = (st', .error e, atts, acqs')) :
    (openCameraLoop cfg st (r :: rest) acqs le).2.1 =
      (openCameraLoop cfg st' rest acqs'
        (some (.camWrap .cameraInitializationError
          ("Failed to open camera with resolution: " ++ r.key) e))).2.1 ∧
    (openCameraLoop cfg st (r :: rest) acqs le).2.2 =
      atts ++ (openCameraLoop cfg st' rest acqs'
        (some (.camWrap .cameraInitializationError
          ("Failed to open camera with resolution: " ++ r.key) e))).2.2 := by
  simp [openCameraLoop, h]

lemma openCameraLoop_all_fail {cfg : WebcamConfig} {d : DeviceInfo}
    (hd : cfg.device = some d) :
    ∀ (rs : List Resolution) (rl : Resolution) (st : WebcamState)
      (acqs : List AcqResult) (le : Option ErrVal),
      rs.getLast? = some rl →
      (∀ i, i < rs.length → attemptSucceeds cfg (scriptAt acqs i) = false) →
      (cfg.allowAnyResolution = false →
        (openCameraLoop cfg st rs acqs le).2.1 =
          .error (.camWrap .cameraInitializationError
            ("Failed to open camera with resolution: " ++ rl.key)
            (candidateFailure (scriptAt acqs (rs.length - 1)))) ∧
        (openCameraLoop cfg st rs acqs le).2.2 = rs.map (exactConstraints cfg d)) ∧
      (cfg.allowAnyResolution = true →
        (openCameraLoop cfg st rs acqs le).2.2 =
          rs.map (exactConstraints cfg d) ++ [anyResolutionConstraints cfg d]) := by
  intro rs
  induction rs with
  | nil =>
    intro rl st acqs le hlast
    exact absurd hlast (by simp)
  | cons r rest ih =>
    intro rl st acqs le hlast hfail
    obtain ⟨hatts, htail, _, herr⟩ := tryResolution_spec hd st r acqs
    rcases h : tryResolution cfg st r acqs with ⟨st', res, atts, acqs'⟩
    rw [h] at hatts htail herr
    simp only at hatts htail herr
    have h0 : attemptSucceeds cfg (nextAcq acqs).1 = false := by
      rw [← scriptAt_zero]
      exact hfail 0 (by simp)
    have hres : res = .error (candidateFailure (nextAcq acqs).1) := herr h0
    subst hres
    subst hatts
    subst htail
    cases rest with
    | nil =>
      have hrl : r = rl := by simpa using hlast
      subst hrl
      constructor
      · intro hany
        simp [openCameraLoop, h, hany, mkCameraError, scriptAt_zero]
      · intro hany
        rcases h3 : tryAnyResolution cfg st' acqs.tail with ⟨st₃, res₃, atts₃, acqs₃⟩
        have hatts₃ : atts₃ = [anyResolutionConstraints cfg d] := by
          have := tryAnyResolution_attempts hd st' acqs.tail
          rw [h3] at this
          simpa using this
        subst hatts₃
        cases res₃ <;> simp [openCameraLoop, h, hany, h3]
    | cons r2 rest2 =>
      have hlast' : (r2 :: rest2).getLast? = some rl := by
        rw [← hlast]
        rfl
      have hfail' : ∀ i, i < (r2 :: rest2).length →
          attemptSucceeds cfg (scriptAt acqs.tail i) = false := fun i hi => by
        rw [← scriptAt_succ]
        exact hfail (i + 1) (by simpa using Nat.succ_lt_succ hi)
      obtain ⟨ihfalse, ihtrue⟩ := ih rl st' acqs.tail
        (some (ErrVal.camWrap .cameraInitializationError
          ("Failed to open camera with resolution: " ++ r.key)
          (candidateFailure (nextAcq acqs).1))) hlast' hfail'
      have hshift : scriptAt acqs.tail ((r2 :: rest2).length - 1) =
          scriptAt acqs ((r :: r2 :: rest2).length - 1) := by
        rw [← scriptAt_succ]
        rfl
      obtain ⟨hstep1, hstep2⟩ := openCameraLoop_cons_err cfg st r (r2 :: rest2) acqs le
        st' (candidateFailure (nextAcq acqs).1) [exactConstraints cfg d r] acqs.tail h
      constructor
      · intro hany
        obtain ⟨ihres, ihatts⟩ := ihfalse hany
        refine ⟨?_, ?_⟩
        · rw [hstep1, ihres, hshift]
        · rw [hstep2, ihatts]
          simp
      · intro hany
        rw [hstep2, ihtrue hany]
        simp

lemma openCamera_list {st : WebcamState} {cfg : WebcamConfig} {rs : List Resolution}
    (hcfg : st.configuration = some cfg)
    (hres : cfg.resolution = some (.list rs)) (acqs : List AcqResult) :
    openCamera st acqs = openCameraLoop cfg st rs acqs none := by
  simp [openCamera, hcfg, hres, ResolutionSetting.toList]

lemma startOp_run {st : WebcamState} {cfg : WebcamConfig} {env : StartEnv}
    (hcfg : st.configuration = some cfg)
    (hcam : env.videoPermOutcome ≠ .denied)
    (hmic : cfg.audio = true → env.audioPermOutcome ≠ .denied) :
    ∃ st2 : WebcamState, st2.configuration = some cfg ∧
      (startOp st env).2.2 = (openCamera st2 env.acquisitions).2.2 ∧
      ((openCamera st2 env.acquisitions).2.1 = .ok () → (startOp st env).2.1 = .ok ()) ∧
      (∀ e, (openCamera st2 env.acquisitions).2.1 = .error e → e.isCameraError = true →
        (startOp st env).2.1 = .error e ∧ (startOp st env).1.lastError = some e) := by
  by_cases ha : cfg.audio
  · refine ⟨{ st with status := WebcamStatus.initializing, lastError := none, permCamera := env.videoPermOutcome, permMicrophone := env.audioPermOutcome }, by simpa using hcfg, ?_⟩
    have hmic' : ¬env.audioPermOutcome = .denied := hmic ha
    rcases ho : openCamera { st with status := WebcamStatus.initializing, lastError := none, permCamera := env.videoPermOutcome, permMicrophone := env.audioPermOutcome } env.acquisitions with ⟨st3, res, atts⟩
    rw [hcfg] at ho
    cases res with
    | ok u =>
      refine ⟨?_, ?_, ?_⟩ <;>
        simp [startOp, hcfg, hcam, ha, hmic', ho, handleError]
    | error e =>
      refine ⟨?_, ?_, ?_⟩ <;>
        simp [startOp, hcfg, hcam, ha, hmic', ho, handleError]
      simp_all
  · refine ⟨{ st with status := WebcamStatus.initializing, lastError := none, permCamera := env.videoPermOutcome }, by simpa using hcfg, ?_⟩
    rcases ho : openCamera { st with status := WebcamStatus.initializing, lastError := none, permCamera := env.videoPermOutcome } env.acquisitions with ⟨st3, res, atts⟩
    rw [hcfg] at ho
    cases res with
    | ok u =>
      refine ⟨?_, ?_, ?_⟩ <;>
        simp [startOp, hcfg, hcam, ha, ho, handleError]
    | error e =>
      refine ⟨?_, ?_, ?_⟩ <;>
        simp [startOp, hcfg, hcam, ha, ho, handleError]
      simp_all

/-- C2: for a configured device and a non-empty ordered candidate list
whose first `attemptSucceeds`-successful entry is at position `k`, `start()`
issues one `getUserMedia` call per candidate, strictly in list order, each
with exact width/height constraints (swapped when `allowSwapResolution` is
set) on the configured device, stops at candidate `k` (exactly the first
`k + 1` candidates are attempted, no later one), and succeeds. -/
theorem start_tries_candidates_in_order
    (st : WebcamState) (cfg : WebcamConfig) (d : DeviceInfo) (rs : List Resolution)
    (env : StartEnv) (k : Nat)
    (hcfg : st.configuration = some cfg)
    (hd : cfg.device = some d)
    (hres : cfg.resolution = some (.list rs))
    (hk : k < rs.length)
    (hcam : env.videoPermOutcome ≠ .denied)
    (hmic : cfg.audio = true → env.audioPermOutcome ≠ .denied)
    (hsucc : attemptSucceeds cfg (scriptAt env.acquisitions k) = true)
    (hfail : ∀ i, i < k → attemptSucceeds cfg (scriptAt env.acquisitions i) = false) :
    (startOp st env).2.1 = .ok () ∧
    (startOp st env).2.2 = (rs.take (k + 1)).map (exactConstraints cfg d) := by
  obtain ⟨st2, hcfg2, hatts, hok, _⟩ := startOp_run hcfg hcam hmic
  have hopen := openCamera_list hcfg2 hres env.acquisitions
  obtain ⟨lok, latts⟩ :=
    openCameraLoop_first_success hd rs k st2 env.acquisitions none hk hsucc hfail
  constructor
  · exact hok (by rw [hopen]; exact lok)
  · rw [hatts, hopen]
    exact latts

/-- The three-candidate list used to witness the negotiation claims. -/
def negotiationCandidates : List Resolution :=
  [createResolution "HD" 1280 720, createResolution "VGA" 640 480,
   createResolution "QVGA" 320 240]

/-- A setup whose resolution field is the three-candidate ordered list. -/
def negotiationSetup : PartialConfig where
  device := some demoDevice
  resolution := some (.list negotiationCandidates)

/-- The configuration installed by `negotiationSetup`. -/
def negotiationConfig : WebcamConfig :=
  mergeConfig (defaultConfiguration false) negotiationSetup

/-- The session state right after `negotiationSetup`. -/
def negotiationState : WebcamState :=
  (setupConfigurationOp (initialState false) negotiationSetup).1

/-- A start environment where the first candidate acquisition fails and the
second succeeds. -/
def secondSucceedsEnv : StartEnv where
  videoPermOutcome := .granted
  acquisitions :=
    [.err (.native "OverconstrainedError" "1280x720 not satisfiable"),
     .ok demoStream none]

/-- Witness for `start_tries_candidates_in_order`: with three candidates and
a script failing the first and granting the second, `start()` succeeds and
attempts exactly the first two candidates, in order. -/
theorem start_tries_candidates_in_order_witness :
    (negotiationState.configuration = some negotiationConfig ∧
      negotiationConfig.device = some demoDevice ∧
      negotiationConfig.resolution = some (.list negotiationCandidates) ∧
      1 < negotiationCandidates.length ∧
      secondSucceedsEnv.videoPermOutcome ≠ .denied ∧
      attemptSucceeds negotiationConfig (scriptAt secondSucceedsEnv.acquisitions 1) = true ∧
      (∀ i, i < 1 →
        attemptSucceeds negotiationConfig (scriptAt secondSucceedsEnv.acquisitions i) = false)) ∧
    (startOp negotiationState secondSucceedsEnv).2.1 = .ok () ∧
    (startOp negotiationState secondSucceedsEnv).2.2 =
      (negotiationCandidates.take 2).map (exactConstraints negotiationConfig demoDevice) :=
  ⟨⟨by decide, by decide, by decide, by decide, by decide, by decide, by decide⟩,
    start_tries_candidates_in_order negotiationState negotiationConfig demoDevice
      negotiationCandidates secondSucceedsEnv 1 (by decide) (by decide) (by decide)
      (by decide) (by decide) (by decide) (by decide) (by decide)⟩

/-- C3: when every candidate of the ordered list fails, then with
`allowAnyResolution = false` the error surfaced by `start()` (and the stored
`lastError`) is exactly the failure recorded for the last candidate — the
`camera-initialization-error` naming the last candidate's key and wrapping
its underlying platform failure — and only the candidates themselves were
attempted; with `allowAnyResolution = true` the negotiation issues the
ideal-4K any-resolution acquisition exactly once, after all explicit
candidates have been exhausted. -/
theorem start_all_candidates_fail
    (st : WebcamState) (cfg : WebcamConfig) (d : DeviceInfo) (rs : List Resolution)
    (rl : Resolution) (env : StartEnv)
    (hcfg : st.configuration = some cfg)
    (hd : cfg.device = some d)
    (hres : cfg.resolution = some (.list rs))
    (hlast : rs.getLast? = some rl)
    (hcam : env.videoPermOutcome ≠ .denied)
    (hmic : cfg.audio = true → env.audioPermOutcome ≠ .denied)
    (hfail : ∀ i, i < rs.length →
      attemptSucceeds cfg (scriptAt env.acquisitions i) = false) :
    (cfg.allowAnyResolution = false →
      (startOp st env).2.1 = .error (.camWrap .cameraInitializationError
        ("Failed to open camera with resolution: " ++ rl.key)
        (candidateFailure (scriptAt env.acquisitions (rs.length - 1)))) ∧
      (startOp st env).1.lastError = some (.camWrap .cameraInitializationError
        ("Failed to open camera with resolution: " ++ rl.key)
        (candidateFailure (scriptAt env.acquisitions (rs.length - 1)))) ∧
      (startOp st env).2.2 = rs.map (exactConstraints cfg d)) ∧
    (cfg.allowAnyResolution = true →
      (startOp st env).2.2 =
        rs.map (exactConstraints cfg d) ++ [anyResolutionConstraints cfg d]) := by
  obtain ⟨st2, hcfg2, hatts, hok, herr⟩ := startOp_run hcfg hcam hmic
  have hopen := openCamera_list hcfg2 hres env.acquisitions
  obtain ⟨lfalse, ltrue⟩ :=
    openCameraLoop_all_fail hd rs rl st2 env.acquisitions none hlast hfail
  constructor
  · intro hany
    obtain ⟨lres, latts⟩ := lfalse hany
    obtain ⟨h1, h2⟩ := herr (.camWrap .cameraInitializationError
      ("Failed to open camera with resolution: " ++ rl.key)
      (candidateFailure (scriptAt env.acquisitions (rs.length - 1))))
      (by rw [hopen]; exact lres) (by rfl)
    exact ⟨h1, h2, by rw [hatts, hopen]; exact latts⟩
  · intro hany
    rw [hatts, hopen]
    exact ltrue hany

/-- A setup like `negotiationSetup` but with the any-resolution fallback
disabled. -/
def noFallbackSetup : PartialConfig where
  device := some demoDevice
  resolution := some (.list negotiationCandidates)
  allowAnyResolution := some false

/-- The configuration installed by `noFallbackSetup`. -/
def noFallbackConfig : WebcamConfig :=
  mergeConfig (defaultConfiguration false) noFallbackSetup

/-- The session state right after `noFallbackSetup`. -/
def noFallbackState : WebcamState :=
  (setupConfigurationOp (initialState false) noFallbackSetup).1

/-- A start environment where all three candidate acquisitions fail. -/
def allFailEnv : StartEnv where
  videoPermOutcome := .granted
  acquisitions :=
    [.err (.native "OverconstrainedError" "1280x720 not satisfiable"),
     .err (.native "OverconstrainedError" "640x480 not satisfiable"),
     .err (.native "NotReadableError" "device busy")]

/-- Witness for `start_all_candidates_fail`: with the fallback disabled and
all three candidates failing, `start()` surfaces the last candidate's
recorded failure and attempted exactly the three candidates. -/
theorem start_all_candidates_fail_witness :
    (noFallbackState.configuration = some noFallbackConfig ∧
      noFallbackConfig.device = some demoDevice ∧
      noFallbackConfig.resolution = some (.list negotiationCandidates) ∧
      negotiationCandidates.getLast? = some (createResolution "QVGA" 320 240) ∧
      allFailEnv.videoPermOutcome ≠ .denied ∧
      (∀ i, i < negotiationCandidates.length →
        attemptSucceeds noFallbackConfig (scriptAt allFailEnv.acquisitions i) = false)) ∧
    ((noFallbackConfig.allowAnyResolution = false →
      (startOp noFallbackState allFailEnv).2.1 = .error (.camWrap .cameraInitializationError
        ("Failed to open camera with resolution: " ++ (createResolution "QVGA" 320 240).key)
        (candidateFailure (scriptAt allFailEnv.acquisitions
          (negotiationCandidates.length - 1)))) ∧
      (startOp noFallbackState allFailEnv).1.lastError =
        some (.camWrap .cameraInitializationError
        ("Failed to open camera with resolution: " ++ (createResolution "QVGA" 320 240).key)
        (candidateFailure (scriptAt allFailEnv.acquisitions
          (negotiationCandidates.length - 1)))) ∧
      (startOp noFallbackState allFailEnv).2.2 =
        negotiationCandidates.map (exactConstraints noFallbackConfig demoDevice)) ∧
    (noFallbackConfig.allowAnyResolution = true →
      (startOp noFallbackState allFailEnv).2.2 =
        negotiationCandidates.map (exactConstraints noFallbackConfig demoDevice) ++
          [anyResolutionConstraints noFallbackConfig demoDevice])) :=
  ⟨⟨by decide, by decide, by decide, by decide, by decide, by decide⟩,
    start_all_candidates_fail noFallbackState noFallbackConfig demoDevice
      negotiationCandidates (createResolution "QVGA" 320 240) allFailEnv
      (by decide) (by decide) (by decide) (by decide) (by decide) (by decide) (by decide)⟩

/-! ## Claims C1, C5, C10: reachable-state invariants -/

/-- The invariant maintained by every public operation: a configuration is
always installed, a `READY` session holds a (live) stream, and an `IDLE`
session holds none.  (`ERROR` is deliberately absent from the stream-null
side: `handleError` does not release a stream.) -/
def GoodState (s : WebcamState) : Prop :=
  s.configuration.isSome = true ∧
  (s.status = .ready → s.stream ≠ none) ∧
  (s.status = .idle → s.stream = none)

lemma tryResolution_state (cfg : WebcamConfig) (st : WebcamState) (r : Resolution)
    (acqs : List AcqResult) :
    (tryResolution cfg st r acqs).1.configuration = st.configuration ∧
    ((tryResolution cfg st r acqs).2.1 = .ok () →
      (tryResolution cfg st r acqs).1.status = .ready ∧
      (tryResolution cfg st r acqs).1.stream ≠ none) ∧
    (∀ e, (tryResolution cfg st r acqs).2.1 = .error e →
      (tryResolution cfg st r acqs).1.status = st.status) := by
  cases hd : cfg.device with
  | none => simp [tryResolution, buildConstraints, hd]
  | some d =>
    cases acqs with
    | nil =>
      by_cases hp : cfg.previewElement <;> by_cases hs : cfg.allowSwapResolution <;>
        simp [tryResolution, buildConstraints, hd, nextAcq, exhaustedAcq, attachPreview, hp, hs]
    | cons a as =>
      cases a with
      | err e =>
        by_cases hs : cfg.allowSwapResolution <;>
          simp [tryResolution, buildConstraints, hd, nextAcq, hs]
      | ok ms pe =>
        cases pe <;> by_cases hp : cfg.previewElement <;>
          by_cases hs : cfg.allowSwapResolution <;>
          simp [tryResolution, buildConstraints, hd, nextAcq, attachPreview, hp, hs]

lemma tryAnyResolution_state (cfg : WebcamConfig) (st : WebcamState)
    (acqs : List AcqResult) :
    (tryAnyResolution cfg st acqs).1.configuration = st.configuration ∧
    ((tryAnyResolution cfg st acqs).2.1 = .ok () →
      (tryAnyResolution cfg st acqs).1.status = .ready ∧
      (tryAnyResolution cfg st acqs).1.stream ≠ none) ∧
    (∀ e, (tryAnyResolution cfg st acqs).2.1 = .error e →
      (tryAnyResolution cfg st acqs).1.status = st.status) := by
  cases hd : cfg.device with
  | none => simp [tryAnyResolution, hd]
  | some d =>
    cases acqs with
    | nil =>
      by_cases hp : cfg.previewElement <;>
        simp [tryAnyResolution, hd, nextAcq, exhaustedAcq, attachPreview, hp]
    | cons a as =>
      cases a with
      | err e => simp [tryAnyResolution, hd, nextAcq]
      | ok ms pe =>
        cases pe <;> by_cases hp : cfg.previewElement <;>
          simp [tryAnyResolution, hd, nextAcq, attachPreview, hp]

lemma openCameraLoop_state (cfg : WebcamConfig) :
    ∀ (rs : List Resolution) (st : WebcamState) (acqs : List AcqResult)
      (le : Option ErrVal),
      (openCameraLoop cfg st rs acqs le).1.configuration = st.configuration ∧
      ((openCameraLoop cfg st rs acqs le).2.1 = .ok () →
        (openCameraLoop cfg st rs acqs le).1.status = .ready ∧
        (openCameraLoop cfg st rs acqs le).1.stream ≠ none) ∧
      (∀ e, (openCameraLoop cfg st rs acqs le).2.1 = .error e →
        (openCameraLoop cfg st rs acqs le).1.status = st.status) := by
  intro rs
  induction rs with
  | nil =>
    intro st acqs le
    by_cases hany : cfg.allowAnyResolution
    · obtain ⟨hconf, hok, herr⟩ := tryAnyResolution_state cfg st acqs
      rcases ht : tryAnyResolution cfg st acqs with ⟨st', res, atts, acqs'⟩
      rw [ht] at hconf hok herr
      simp only at hconf hok herr
      cases res with
      | ok u =>
        cases u
        obtain ⟨hst, hsm⟩ := hok rfl
        refine ⟨?_, ?_, ?_⟩ <;> simp [openCameraLoop, hany, ht, hconf, hst, hsm]
      | error e =>
        refine ⟨?_, ?_, ?_⟩ <;> simp [openCameraLoop, hany, ht, hconf]
        exact herr e rfl
    · simp [openCameraLoop, hany]
  | cons r rest ih =>
    intro st acqs le
    obtain ⟨hconf, hok, herr⟩ := tryResolution_state cfg st r acqs
    rcases h : tryResolution cfg st r acqs with ⟨st', res, atts, acqs'⟩
    rw [h] at hconf hok herr
    simp only at hconf hok herr
    cases res with
    | ok u =>
      cases u
      obtain ⟨hst, hsm⟩ := hok rfl
      refine ⟨?_, ?_, ?_⟩ <;> simp [openCameraLoop, h, hconf, hst, hsm]
    | error e =>
      obtain ⟨ihconf, ihok, iherr⟩ := ih st' acqs'
        (some (ErrVal.camWrap .cameraInitializationError
          ("Failed to open camera with resolution: " ++ r.key) e))
      rcases h2 : openCameraLoop cfg st' rest acqs'
          (some (ErrVal.camWrap .cameraInitializationError
            ("Failed to open camera with resolution: " ++ r.key) e)) with ⟨st'', res', atts'⟩
      rw [h2] at ihconf ihok iherr
      simp only at ihconf ihok iherr
      have hst : st'.status = st.status := herr e rfl
      refine ⟨?_, ?_, ?_⟩ <;> simp [openCameraLoop, h, h2]
      · rw [ihconf, hconf]
      · intro hres
        exact (by simpa [hres] using ihok)
      · intro e' hres
        rw [← hst]
        exact iherr e' (by simpa using hres)

lemma openCamera_state (st : WebcamState) (acqs : List AcqResult) :
    (openCamera st acqs).1.configuration = st.configuration ∧
    ((openCamera st acqs).2.1 = .ok () →
      (openCamera st acqs).1.status = .ready ∧
      (openCamera st acqs).1.stream ≠ none) ∧
    (∀ e, (openCamera st acqs).2.1 = .error e →
      (openCamera st acqs).1.status = st.status) := by
  cases hc : st.configuration with
  | none => simp [openCamera, hc]
  | some cfg =>
    cases hr : cfg.resolution with
    | none =>
      by_cases hany : cfg.allowAnyResolution
      · obtain ⟨hconf, hok, herr⟩ := tryAnyResolution_state cfg st acqs
        rcases ht : tryAnyResolution cfg st acqs with ⟨st', res, atts, acqs'⟩
        rw [ht] at hconf hok herr
        simp only at hconf hok herr
        cases res with
        | ok u =>
          cases u
          obtain ⟨hst, hsm⟩ := hok rfl
          refine ⟨?_, ?_, ?_⟩ <;>
            simp [openCamera, hc, hr, hany, ht, hst, hsm, hconf.trans hc]
        | error e =>
          refine ⟨?_, ?_, ?_⟩ <;> simp [openCamera, hc, hr, hany, ht, hconf.trans hc]
          exact herr e rfl
      · simp [openCamera, hc, hr, hany]
    | some setting =>
      have h := openCameraLoop_state cfg setting.toList st acqs none
      simpa [openCamera, hc, hr] using h

lemma goodState_of_same (s s' : WebcamState) (h : GoodState s)
    (h1 : s'.configuration = s.configuration) (h2 : s'.status = s.status)
    (h3 : s'.stream = s.stream) : GoodState s' := by
  obtain ⟨a, b, c⟩ := h
  refine ⟨by rw [h1]; exact a, ?_, ?_⟩
  · rw [h2, h3]
    exact b
  · rw [h2, h3]
    exact c

lemma startOp_state (st : WebcamState) (env : StartEnv) :
    (startOp st env).1.configuration = st.configuration ∧
    ((startOp st env).2.1 = .ok () →
      (startOp st env).1.status = .ready ∧ (startOp st env).1.stream ≠ none) ∧
    (∀ e, (startOp st env).2.1 = .error e →
      ((startOp st env).1.status = .error ∨ (startOp st env).1 = st)) := by
  cases hc : st.configuration with
  | none => simp [startOp, hc]
  | some cfg =>
    by_cases hcam : env.videoPermOutcome = .denied
    · by_cases ha : cfg.audio = true <;>
        refine ⟨?_, ?_, ?_⟩ <;> simp [startOp, hc, hcam, ha, handleError]
    · by_cases ha : cfg.audio = true
      · by_cases hmic : env.audioPermOutcome = .denied
        · refine ⟨?_, ?_, ?_⟩ <;> simp [startOp, hc, hcam, ha, hmic, handleError]
        · obtain ⟨oconf, ook, oerr⟩ := openCamera_state { st with status := WebcamStatus.initializing, lastError := none, permCamera := env.videoPermOutcome, permMicrophone := env.audioPermOutcome } env.acquisitions
          rcases ho : openCamera { st with status := WebcamStatus.initializing, lastError := none, permCamera := env.videoPermOutcome, permMicrophone := env.audioPermOutcome } env.acquisitions with ⟨st3, res, atts⟩
          rw [ho] at oconf ook oerr
          simp only at oconf ook oerr
          rw [hc] at ho
          cases res with
          | ok u =>
            cases u
            obtain ⟨hst, hsm⟩ := ook rfl
            refine ⟨?_, ?_, ?_⟩ <;>
              simp [startOp, hc, hcam, ha, hmic, ho, handleError, oconf, hst, hsm]
          | error e =>
            refine ⟨?_, ?_, ?_⟩ <;>
              simp [startOp, hc, hcam, ha, hmic, ho, handleError, oconf]
      · obtain ⟨oconf, ook, oerr⟩ := openCamera_state { st with status := WebcamStatus.initializing, lastError := none, permCamera := env.videoPermOutcome } env.acquisitions
        rcases ho : openCamera { st with status := WebcamStatus.initializing, lastError := none, permCamera := env.videoPermOutcome } env.acquisitions with ⟨st3, res, atts⟩
        rw [ho] at oconf ook oerr
        simp only at oconf ook oerr
        rw [hc] at ho
        cases res with
        | ok u =>
          cases u
          obtain ⟨hst, hsm⟩ := ook rfl
          refine ⟨?_, ?_, ?_⟩ <;>
            simp [startOp, hc, hcam, ha, ho, handleError, oconf, hst, hsm]
        | error e =>
          refine ⟨?_, ?_, ?_⟩ <;>
            simp [startOp, hc, hcam, ha, ho, handleError, oconf]

lemma startOp_good {st : WebcamState} (env : StartEnv) (h : GoodState st) :
    GoodState (startOp st env).1 := by
  obtain ⟨sconf, sok, serr⟩ := startOp_state st env
  obtain ⟨hconf, hready, hidle⟩ := h
  refine ⟨by rw [sconf]; exact hconf, ?_, ?_⟩
  · intro hr
    cases hres : (startOp st env).2.1 with
    | ok u =>
      cases u
      exact (sok hres).2
    | error e =>
      rcases serr e hres with hst | hid
      · rw [hst] at hr
        cases hr
      · rw [hid] at hr ⊢
        exact hready hr
  · intro hi
    cases hres : (startOp st env).2.1 with
    | ok u =>
      cases u
      rw [(sok hres).1] at hi
      cases hi
    | error e =>
      rcases serr e hres with hst | hid
      · rw [hst] at hi
        cases hi
      · rw [hid] at hi ⊢
        exact hidle hi

lemma stopOp_good {st : WebcamState} (h : GoodState st) : GoodState (stopOp st).1 := by
  obtain ⟨hconf, hready, hidle⟩ := h
  cases hc : st.configuration with
  | none => exact absurd (hc ▸ hconf) (by simp)
  | some cfg =>
    by_cases hp : cfg.previewElement <;>
      exact ⟨by simp [stopOp, hc, hp], by simp [stopOp, hc, hp], by simp [stopOp, hc, hp]⟩

lemma clearErrorOp_good {st : WebcamState} (h : GoodState st) :
    GoodState (clearErrorOp st) := by
  obtain ⟨hconf, hready, hidle⟩ := h
  refine ⟨by simpa [clearErrorOp] using hconf, ?_, ?_⟩
  · intro hr
    simp only [clearErrorOp] at hr ⊢
    cases hsm : st.stream.isSome with
    | true =>
      simpa using Option.isSome_iff_ne_none.mp hsm
    | false =>
      rw [hsm] at hr
      cases hr
  · intro hi
    simp only [clearErrorOp] at hi ⊢
    cases hsm : st.stream.isSome with
    | true =>
      rw [hsm] at hi
      simp only [if_true] at hi
      have := hidle hi
      rw [this] at hsm
      cases hsm
    | false =>
      simpa using Option.not_isSome_iff_eq_none.mp (by simp [hsm])

lemma updateConfigurationOp_good {st : WebcamState} (p : PartialConfig)
    (restart : Bool) (env : StartEnv) (h : GoodState st) :
    GoodState (updateConfigurationOp st p restart env).1 := by
  obtain ⟨hconf, hready, hidle⟩ := h
  cases hc : st.configuration with
  | none => exact absurd (hc ▸ hconf) (by simp)
  | some cfg =>
    by_cases hcond : (st.stream.isSome && restart) = true
    · by_cases hp : cfg.previewElement <;>
        by_cases hk : (p.hasKey "mirror" &&
          (mergeConfig cfg p).previewElement) = true <;>
        simp [updateConfigurationOp, hc, hcond, stopOp, hp, hk] <;>
        exact startOp_good env ⟨by simp, by simp, by simp⟩
    · by_cases hk : (p.hasKey "mirror" && (mergeConfig cfg p).previewElement) = true <;>
        simp [updateConfigurationOp, hc, hcond, hk] <;>
        exact ⟨by simp, fun hr => by simpa using hready hr,
          fun hi => by simpa using hidle hi⟩

lemma toggleMirrorOp_good {st : WebcamState} (h : GoodState st) :
    GoodState (toggleMirrorOp st).1 := by
  cases hc : st.configuration with
  | none => simpa [toggleMirrorOp, hc] using h
  | some cfg =>
    simp only [toggleMirrorOp, hc]
    exact updateConfigurationOp_good _ _ _ h

lemma toggleOp_good {st : WebcamState} (setting : ToggleSetting) (env : ToggleEnv)
    (h : GoodState st) : GoodState (toggleOp st setting env).1 := by
  cases hc : st.configuration with
  | none => simpa [toggleOp, hc] using h
  | some cfg =>
    have hperm : ∀ q : PermissionState,
        GoodState { st with configuration := some cfg, permMicrophone := q } :=
      fun q => goodState_of_same st _ h (by simp [hc]) rfl rfl
    by_cases hcond : (setting = ToggleSetting.audio ∧ cfg.settingValue setting = false)
    · obtain ⟨hset, hval⟩ := hcond
      subst hset
      cases hq : env.micQuery with
      | none =>
        by_cases hr : env.micRequest = PermissionState.denied
        · simp [toggleOp, hc, hval, checkMicrophonePermissionOp, hq, hr]
          exact hperm _
        · simp [toggleOp, hc, hval, checkMicrophonePermissionOp, hq, hr]
          exact updateConfigurationOp_good _ _ _ (hperm _)
      | some q =>
        cases q with
        | prompt =>
          by_cases hr : env.micRequest = PermissionState.denied
          · simp [toggleOp, hc, hval, checkMicrophonePermissionOp, hq, hr]
            exact hperm _
          · simp [toggleOp, hc, hval, checkMicrophonePermissionOp, hq, hr]
            exact updateConfigurationOp_good _ _ _ (hperm _)
        | denied =>
          simp [toggleOp, hc, hval, checkMicrophonePermissionOp, hq]
          exact hperm _
        | granted =>
          simp [toggleOp, hc, hval, checkMicrophonePermissionOp, hq]
          exact updateConfigurationOp_good _ _ _ (hperm _)
    · simp [toggleOp, hc, hcond]
      exact updateConfigurationOp_good _ _ _ h

lemma captureImageOp_good {st : WebcamState} (c : CaptureConfig) (h : GoodState st) :
    GoodState (captureImageOp st c).1 := by
  cases hc : st.configuration with
  | none => simpa [captureImageOp, hc] using h
  | some cfg =>
    cases hs : st.stream with
    | none => simpa [captureImageOp, hc, hs] using h
    | some ms =>
      by_cases hp : cfg.previewElement <;>
        simp only [captureImageOp, hc, hs, hp, if_true, if_false, Bool.false_eq_true,
          reduceIte] <;>
        exact goodState_of_same st _ h (by simp [hc]) rfl (by simp [hs])

lemma setupConfigurationOp_good {st : WebcamState} (p : PartialConfig)
    (h : GoodState st) : GoodState (setupConfigurationOp st p).1 := by
  cases hd : p.device with
  | none => simpa [setupConfigurationOp, hd] using h
  | some d =>
    obtain ⟨hconf, hready, hidle⟩ := h
    exact ⟨by simp [setupConfigurationOp, hd],
      fun hr => by simpa [setupConfigurationOp, hd] using hready (by simpa [setupConfigurationOp, hd] using hr),
      fun hi => by simpa [setupConfigurationOp, hd] using hidle (by simpa [setupConfigurationOp, hd] using hi)⟩

lemma applyOp_good (op : Op) (st : WebcamState) (h : GoodState st) :
    GoodState (applyOp st op) := by
  cases op with
  | setupConfiguration p => exact setupConfigurationOp_good p h
  | start env => exact startOp_good env h
  | stop => exact stopOp_good h
  | clearError => exact clearErrorOp_good h
  | updateConfiguration p restart env => exact updateConfigurationOp_good p restart env h
  | toggleMirror => exact toggleMirrorOp_good h
  | toggle s env => exact toggleOp_good s env h
  | captureImage c => exact captureImageOp_good c h

lemma reachable_good {s : WebcamState} (h : Reachable s) : GoodState s := by
  induction h with
  | init isMobileTablet => exact ⟨by simp [initialState], by simp [initialState], by simp [initialState]⟩
  | step op _ ih => exact applyOp_good op _ ih

/-! ## Claim C10 -/

/-- C10: `configuration` is never null in any reachable session — the
constructor installs a full default configuration and no operation resets it
— so `checkConfiguration`'s error branch (the `'Please call
setupConfiguration() before using webcam'` configuration error) is
unreachable, and no operation guarded by it can fail with that error. -/
theorem checkConfiguration_error_unreachable (s : WebcamState) (h : Reachable s) :
    s.configuration ≠ none ∧ checkConfiguration s = .ok () := by
  obtain ⟨hconf, _, _⟩ := reachable_good h
  cases hc : s.configuration with
  | none =>
    rw [hc] at hconf
    cases hconf
  | some cfg => exact ⟨by simp [hc], by simp [checkConfiguration, hc]⟩

/-- Witness for `checkConfiguration_error_unreachable` at the freshly
constructed session. -/
theorem checkConfiguration_error_unreachable_witness :
    (initialState false).configuration ≠ none ∧
    checkConfiguration (initialState false) = .ok () :=
  checkConfiguration_error_unreachable (initialState false) (Reachable.init false)

/-! ## Claim C1 -/

/-- An environment for a second `start()` in which the transient camera
permission request is denied (the platform permission was revoked). -/
def permissionLostEnv : StartEnv := { videoPermOutcome := .denied }

/-- A reachable state with `status = ERROR` that still holds the live
stream of the preceding successful `start()`: setup, a successful start,
then a start that fails at permission validation — `handleError` moves to
`ERROR` without releasing the stream. -/
def errorRetainsStreamState : WebcamState :=
  runOps (initialState false)
    [.setupConfiguration demoSetup, .start startOkEnv, .start permissionLostEnv]

/-- C1 as stated is false: the claimed invariant includes
`status ∈ {Idle, Error} → stream = null`, but a reachable `ERROR` state
retains a live stream (in this embedding a stream held in the state is live;
see the module comment).  The counterexample is the trace
`setupConfiguration; start (success); start (permission denied)`. -/
theorem status_stream_invariant_counterexample :
    ¬ (∀ s : WebcamState, Reachable s →
        (s.status = .ready → s.stream ≠ none) ∧
        ((s.status = .idle ∨ s.status = .error) → s.stream = none)) := by
  intro hAll
  have hreach : Reachable errorRetainsStreamState :=
    reachable_runOps (Reachable.init false) _
  have h := (hAll _ hreach).2 (Or.inr (by decide))
  exact absurd h (by decide)

/-- C1 amended: in every reachable session state, `status = Ready` implies
the stream field holds a (live) stream, and `status = Idle` implies it is
null; an `ERROR` state may retain the stream a failed `start()` left behind
(`handleError` does not release it). -/
theorem status_stream_invariant (s : WebcamState) (h : Reachable s) :
    (s.status = .ready → s.stream ≠ none) ∧
    (s.status = .idle → s.stream = none) :=
  ⟨(reachable_good h).2.1, (reachable_good h).2.2⟩

/-- Witness for `status_stream_invariant` at the freshly constructed
session. -/
theorem status_stream_invariant_witness :
    ((initialState false).status = .ready → (initialState false).stream ≠ none) ∧
    ((initialState false).status = .idle → (initialState false).stream = none) :=
  status_stream_invariant (initialState false) (Reachable.init false)

/-! ## Claim C5 -/

/-- An empty `captureImage` options object. -/
def emptyCaptureConfig : CaptureConfig := {}

lemma captureResult_dataUrl_ne (ms : MediaStream) (c : CaptureConfig) :
    (captureResult ms c).dataUrl ≠ "" := by
  cases hmt : c.mediaType with
  | none =>
    simp only [captureResult, hmt, Option.getD_none]
    decide
  | some t =>
    cases t <;>
      (simp only [captureResult, hmt, Option.getD_some]; decide)

/-- C5 as stated is false: `captureImage` is guarded by the presence of a
stream, not by `status = Ready`.  In the reachable `ERROR` state that
retains a stream (trace `setupConfiguration; start (success); start
(permission denied)`), `status ≠ Ready` and yet `captureImage` succeeds
instead of failing with the no-stream error. -/
theorem captureImage_status_guard_counterexample :
    ¬ (∀ s : WebcamState, Reachable s → ∀ c : CaptureConfig,
        (s.status ≠ .ready → (captureImageOp s c).2 = .error noStreamError) ∧
        (s.status = .ready → ∃ img, (captureImageOp s c).2 = .ok img ∧
          img.dataUrl ≠ "" ∧ (∃ ms, s.stream = some ms ∧
            img.width = jsSettingsWidth ms * effectiveScale c ∧
            img.height = jsSettingsHeight ms * effectiveScale c))) := by
  intro hAll
  have hreach : Reachable errorRetainsStreamState :=
    reachable_runOps (Reachable.init false) _
  have h := (hAll _ hreach emptyCaptureConfig).1 (by decide)
  exact absurd h (by decide)

/-- C5 amended: in every reachable session state, `captureImage` fails with
the no-stream error exactly when the stream field is null (in particular in
every `Idle` state).  While `status = Ready` and a preview element is
configured it returns a non-empty encoded payload whose declared dimensions
are `trackSettings.width × scale` by `trackSettings.height × scale` (with
the source's `|| 640` / `|| 480` fallback for absent track dimensions), the
scale defaulting to `1`; while `Ready` without a configured preview element
it sizes the canvas and then throws the platform `TypeError` from
`drawImage(undefined, ...)` instead of returning a payload. -/
theorem captureImage_guarded_by_stream (s : WebcamState) (h : Reachable s)
    (c : CaptureConfig) :
    ((captureImageOp s c).2 = .error noStreamError ↔ s.stream = none) ∧
    (s.status = .ready → ∀ cfg, s.configuration = some cfg →
      ∃ ms, s.stream = some ms ∧
        (cfg.previewElement = true →
          (captureImageOp s c).2 = .ok (captureResult ms c) ∧
          (captureResult ms c).dataUrl ≠ "" ∧
          (captureResult ms c).width = jsSettingsWidth ms * effectiveScale c ∧
          (captureResult ms c).height = jsSettingsHeight ms * effectiveScale c) ∧
        (cfg.previewElement = false →
          (captureImageOp s c).2 = .error drawImageTypeError)) := by
  obtain ⟨hconf, hready, _⟩ := reachable_good h
  cases hc : s.configuration with
  | none =>
    rw [hc] at hconf
    cases hconf
  | some cfg =>
    cases hs : s.stream with
    | none =>
      constructor
      · simp [captureImageOp, hc, hs]
      · intro hr
        exact absurd hs (hready hr)
    | some ms =>
      constructor
      · by_cases hp : cfg.previewElement <;>
          simp [captureImageOp, hc, hs, hp, drawImageTypeError, noStreamError]
      · intro _ cfg' hcfg'
        injection hcfg' with hcfg''
        subst hcfg''
        refine ⟨ms, rfl, ?_, ?_⟩
        · intro hp
          exact ⟨by simp [captureImageOp, hc, hs, hp],
            captureResult_dataUrl_ne ms c, rfl, rfl⟩
        · intro hp
          simp [captureImageOp, hc, hs, hp]

/-- A setup with a device and a candidate list but no preview element. -/
def previewlessSetup : PartialConfig where
  device := some demoDevice
  resolution := some (.list [demoResolution])

/-- The configuration installed by `previewlessSetup`. -/
def previewlessConfig : WebcamConfig :=
  mergeConfig (defaultConfiguration false) previewlessSetup

/-- A `READY` session with a live stream but no preview element. -/
def previewlessReadyState : WebcamState :=
  runOps (initialState false) [.setupConfiguration previewlessSetup, .start startOkEnv]

/-- Witness for `captureImage_guarded_by_stream`: at the freshly constructed
(idle, stream-less) session the no-stream error fires, and at a reachable
preview-less `READY` session the capture crashes with the `drawImage`
`TypeError`. -/
theorem captureImage_guarded_by_stream_witness :
    (captureImageOp (initialState false) emptyCaptureConfig).2 =
      .error noStreamError ∧
    (captureImageOp previewlessReadyState emptyCaptureConfig).2 =
      .error drawImageTypeError := by
  constructor
  · exact (captureImage_guarded_by_stream (initialState false) (Reachable.init false)
      emptyCaptureConfig).1.mpr rfl
  · obtain ⟨ms, hms, hok, hcrash⟩ :=
      (captureImage_guarded_by_stream previewlessReadyState
        (reachable_runOps (Reachable.init false) _) emptyCaptureConfig).2
        (by decide) previewlessConfig (by decide)
    exact hcrash (by decide)

/-! ## Claim C9: snapshot getters and reference sharing

`getWebcamState()` is `return { ...this.state }` and `getCapabilities()` is
`return { ...this.state.capabilities }` — single-level spreads.  Whether a
caller's mutation of the returned value reaches the internal state is a
question of object identity, so this part of the model makes the JS heap
explicit: objects live at addresses, a spread allocates a fresh object whose
fields (including the addresses of nested objects) copy the source's, and a
mutation is a write at an address. -/

/-- The `CameraFeatures` object as stored on the heap: primitive fields plus
the address of the `availableFocusModes` array. -/
structure FeaturesFields where
  hasZoom : Bool
  hasTorch : Bool
  hasFocus : Bool
  currentZoom : Nat
  minZoom : Nat
  maxZoom : Nat
  isTorchActive : Bool
  isFocusActive : Bool
  activeFocusMode : String
  availableFocusModesRef : Nat
deriving DecidableEq, Repr

/-- The `WebcamState` object as stored on the heap: a primitive field plus
the addresses of its nested capabilities record and devices array (the
nested parts the claim names). -/
structure StateFields where
  status : WebcamStatus
  capabilitiesRef : Nat
  devicesRef : Nat
deriving DecidableEq, Repr

/-- The JS heap: addresses to state objects, capability records, string
arrays and device arrays. -/
structure JsHeap where
  stateObjs : Nat → StateFields
  featureObjs : Nat → FeaturesFields
  stringArrays : Nat → List String
  deviceArrays : Nat → List DeviceInfo

/-- `getWebcamState()`, i.e. `return { ...this.state }`: allocate `fresh`
and field-copy the internal state object into it — nested objects are
copied as the same addresses. -/
def jsGetWebcamState (h : JsHeap) (internal fresh : Nat) : JsHeap :=
  { h with stateObjs := fun a => if a = fresh then h.stateObjs internal else h.stateObjs a }

/-- `getCapabilities()`, i.e. `return { ...this.state.capabilities }`:
allocate `freshF` and field-copy the internal capabilities record into it. -/
def jsGetCapabilities (h : JsHeap) (internal freshF : Nat) : JsHeap :=
  { h with featureObjs := fun a =>
      if a = freshF then h.featureObjs ((h.stateObjs internal).capabilitiesRef)
      else h.featureObjs a }

/-- Assign the `status` field of the state object at `addr`. -/
def writeStateStatus (h : JsHeap) (addr : Nat) (v : WebcamStatus) : JsHeap :=
  { h with stateObjs := fun a =>
      if a = addr then { h.stateObjs a with status := v } else h.stateObjs a }

/-- Assign the `hasZoom` field of the capabilities record at `addr`. -/
def writeFeatureHasZoom (h : JsHeap) (addr : Nat) (v : Bool) : JsHeap :=
  { h with featureObjs := fun a =>
      if a = addr then { h.featureObjs a with hasZoom := v } else h.featureObjs a }

/-- Overwrite the string array at `addr` (e.g. push into
`availableFocusModes`). -/
def writeStringArray (h : JsHeap) (addr : Nat) (l : List String) : JsHeap :=
  { h with stringArrays := fun a => if a = addr then l else h.stringArrays a }

/-- The internal session's top-level `status` as the core reads it. -/
def viewStatus (h : JsHeap) (stateAddr : Nat) : WebcamStatus :=
  (h.stateObjs stateAddr).status

/-- The internal session's capabilities record as the core reads it. -/
def viewCapabilities (h : JsHeap) (stateAddr : Nat) : FeaturesFields :=
  h.featureObjs ((h.stateObjs stateAddr).capabilitiesRef)

/-- The internal session's `availableFocusModes` array as the core reads
it. -/
def viewFocusModes (h : JsHeap) (stateAddr : Nat) : List String :=
  h.stringArrays ((viewCapabilities h stateAddr).availableFocusModesRef)

/-- A capabilities record at the defaults, its focus-mode array at address
0. -/
def demoFeatures : FeaturesFields where
  hasZoom := false
  hasTorch := false
  hasFocus := false
  currentZoom := 1
  minZoom := 1
  maxZoom := 1
  isTorchActive := false
  isFocusActive := false
  activeFocusMode := "none"
  availableFocusModesRef := 0

/-- A concrete heap: the internal state object at address 0 references the
capabilities record at address 0 and the devices array at address 0. -/
def demoHeap : JsHeap where
  stateObjs := fun _ => { status := .idle, capabilitiesRef := 0, devicesRef := 0 }
  featureObjs := fun _ => demoFeatures
  stringArrays := fun _ => []
  deviceArrays := fun _ => []

/-- C9 as stated is false: the getters return single-level spreads, so
mutating a nested object of the snapshot mutates the internal state.
Concretely: on `demoHeap`, take the `getWebcamState()` snapshot (a fresh
object at address 1), set `hasZoom := true` on the snapshot's capabilities
record — the internal session's own capabilities view changes, because the
snapshot's `capabilities` field is the same heap object. -/
theorem snapshot_deep_copy_counterexample :
    ¬ (∀ (h : JsHeap) (internal fresh : Nat) (b : Bool), fresh ≠ internal →
        viewCapabilities
          (writeFeatureHasZoom (jsGetWebcamState h internal fresh)
            ((jsGetWebcamState h internal fresh).stateObjs fresh).capabilitiesRef b)
          internal =
        viewCapabilities (jsGetWebcamState h internal fresh) internal) := by
  intro hAll
  have h := hAll demoHeap 0 1 true (by decide)
  have h2 := congrArg FeaturesFields.hasZoom h
  exact absurd h2 (by decide)

/-- C9 amended: the snapshot getters return shallow copies.  The snapshot
is a fresh object, so assigning its own top-level fields leaves the internal
state untouched; but its nested objects (the capabilities record and the
devices array for `getWebcamState`, the `availableFocusModes` array for
`getCapabilities`) are shared by reference, so mutating them through the
snapshot mutates the internal session state. -/
theorem snapshot_shallow_copy (h : JsHeap) (internal fresh freshF : Nat)
    (hne : fresh ≠ internal) (v : WebcamStatus) (b : Bool) (l : List String) :
    viewStatus (writeStateStatus (jsGetWebcamState h internal fresh) fresh v) internal =
      viewStatus (jsGetWebcamState h internal fresh) internal ∧
    viewCapabilities (writeStateStatus (jsGetWebcamState h internal fresh) fresh v)
        internal =
      viewCapabilities (jsGetWebcamState h internal fresh) internal ∧
    ((jsGetWebcamState h internal fresh).stateObjs fresh).capabilitiesRef =
      ((jsGetWebcamState h internal fresh).stateObjs internal).capabilitiesRef ∧
    ((jsGetWebcamState h internal fresh).stateObjs fresh).devicesRef =
      ((jsGetWebcamState h internal fresh).stateObjs internal).devicesRef ∧
    (viewCapabilities
      (writeFeatureHasZoom (jsGetWebcamState h internal fresh)
        ((jsGetWebcamState h internal fresh).stateObjs fresh).capabilitiesRef b)
      internal).hasZoom = b ∧
    (jsGetCapabilities h internal freshF).featureObjs freshF =
      viewCapabilities h internal ∧
    viewFocusModes
      (writeStringArray (jsGetCapabilities h internal freshF)
        ((jsGetCapabilities h internal freshF).featureObjs
          freshF).availableFocusModesRef l)
      internal = l := by
  have hne' : ¬(internal = fresh) := fun hx => hne hx.symm
  refine ⟨?_, ?_, ?_, ?_, ?_, ?_, ?_⟩ <;>
    simp [viewStatus, viewCapabilities, viewFocusModes, writeStateStatus,
      writeFeatureHasZoom, writeStringArray, jsGetWebcamState, jsGetCapabilities, hne']

/-- Witness for `snapshot_shallow_copy` on the concrete heap, snapshot
addresses 1 and 2. -/
theorem snapshot_shallow_copy_witness :
    viewStatus (writeStateStatus (jsGetWebcamState demoHeap 0 1) 1 .error) 0 =
      viewStatus (jsGetWebcamState demoHeap 0 1) 0 ∧
    viewCapabilities (writeStateStatus (jsGetWebcamState demoHeap 0 1) 1 .error) 0 =
      viewCapabilities (jsGetWebcamState demoHeap 0 1) 0 ∧
    ((jsGetWebcamState demoHeap 0 1).stateObjs 1).capabilitiesRef =
      ((jsGetWebcamState demoHeap 0 1).stateObjs 0).capabilitiesRef ∧
    ((jsGetWebcamState demoHeap 0 1).stateObjs 1).devicesRef =
      ((jsGetWebcamState demoHeap 0 1).stateObjs 0).devicesRef ∧
    (viewCapabilities
      (writeFeatureHasZoom (jsGetWebcamState demoHeap 0 1)
        ((jsGetWebcamState demoHeap 0 1).stateObjs 1).capabilitiesRef true) 0).hasZoom =
      true ∧
    (jsGetCapabilities demoHeap 0 2).featureObjs 2 = viewCapabilities demoHeap 0 ∧
    viewFocusModes
      (writeStringArray (jsGetCapabilities demoHeap 0 2)
        ((jsGetCapabilities demoHeap 0 2).featureObjs 2).availableFocusModesRef
        ["manual"]) 0 = ["manual"] :=
  snapshot_shallow_copy demoHeap 0 1 2 (by decide) .error true ["manual"]

end TsWebcam
